import Mathlib

/-!
Verification of the scene-graph traversal and camera-control subsystem of a
small glTF 2.0 viewer.  The development shallowly embeds:

* `getLocalToWorldMatrix` and `computeSceneBounds` from
  `src/apps/gltf-viewer/utils/gltf.cpp`, with glm 4x4 column-major matrices,
  quaternion-to-matrix casting, and byte-level accessor/buffer decoding,
  over exact rational arithmetic;
* the `Camera` value type and its motion primitives from
  `src/apps/gltf-viewer/utils/cameras.hpp`, and the two camera controllers
  (`FirstPersonCameraController::update`, `TrackballCameraController::update`)
  from `src/apps/gltf-viewer/utils/cameras.cpp`, over exact real arithmetic
  (glm `rotate`, `normalize`, `length` use `Real.cos`, `Real.sin`,
  `Real.sqrt`).
-/

set_option maxHeartbeats 1600000

/-- Component-wise 3-vector, mirroring `glm::vec3` (exact scalars instead of
`float`). -/
structure V3 (α : Type) where
  x : α
  y : α
  z : α
deriving DecidableEq, Repr

/-- Component-wise 4-vector, mirroring `glm::vec4` over exact rationals. -/
structure V4 where
  x : ℚ
  y : ℚ
  z : ℚ
  w : ℚ
deriving DecidableEq, Repr

instance {α : Type} [Add α] : Add (V3 α) := ⟨fun a b => ⟨a.x + b.x, a.y + b.y, a.z + b.z⟩⟩

instance {α : Type} [Sub α] : Sub (V3 α) := ⟨fun a b => ⟨a.x - b.x, a.y - b.y, a.z - b.z⟩⟩

instance {α : Type} [Neg α] : Neg (V3 α) := ⟨fun a => ⟨-a.x, -a.y, -a.z⟩⟩

instance {α : Type} [Mul α] : SMul α (V3 α) := ⟨fun r a => ⟨r * a.x, r * a.y, r * a.z⟩⟩

instance {α : Type} [OfNat α 0] : Zero (V3 α) := ⟨⟨0, 0, 0⟩⟩

@[simp] theorem V3.add_x {α : Type} [Add α] (a b : V3 α) : (a + b).x = a.x + b.x := rfl

@[simp] theorem V3.add_y {α : Type} [Add α] (a b : V3 α) : (a + b).y = a.y + b.y := rfl

@[simp] theorem V3.add_z {α : Type} [Add α] (a b : V3 α) : (a + b).z = a.z + b.z := rfl

@[simp] theorem V3.sub_x {α : Type} [Sub α] (a b : V3 α) : (a - b).x = a.x - b.x := rfl

@[simp] theorem V3.sub_y {α : Type} [Sub α] (a b : V3 α) : (a - b).y = a.y - b.y := rfl

@[simp] theorem V3.sub_z {α : Type} [Sub α] (a b : V3 α) : (a - b).z = a.z - b.z := rfl

@[simp] theorem V3.neg_x {α : Type} [Neg α] (a : V3 α) : (-a).x = -a.x := rfl

@[simp] theorem V3.neg_y {α : Type} [Neg α] (a : V3 α) : (-a).y = -a.y := rfl

@[simp] theorem V3.neg_z {α : Type} [Neg α] (a : V3 α) : (-a).z = -a.z := rfl

@[simp] theorem V3.smul_x {α : Type} [Mul α] (r : α) (a : V3 α) : (r • a).x = r * a.x := rfl

@[simp] theorem V3.smul_y {α : Type} [Mul α] (r : α) (a : V3 α) : (r • a).y = r * a.y := rfl

@[simp] theorem V3.smul_z {α : Type} [Mul α] (r : α) (a : V3 α) : (r • a).z = r * a.z := rfl

@[simp] theorem V3.zero_def {α : Type} [OfNat α 0] : (0 : V3 α) = ⟨0, 0, 0⟩ := rfl

/-- Dot product of two 3-vectors, as in `glm::dot`. -/
def V3.dot {α : Type} [CommRing α] (a b : V3 α) : α :=
  a.x * b.x + a.y * b.y + a.z * b.z

/-- Cross product of two 3-vectors, as in `glm::cross`. -/
def V3.cross {α : Type} [CommRing α] (a b : V3 α) : V3 α :=
  ⟨a.y * b.z - a.z * b.y, a.z * b.x - a.x * b.z, a.x * b.y - a.y * b.x⟩

/-- Component-wise minimum, as in `glm::min` on `vec3`. -/
def V3.vmin (a b : V3 ℚ) : V3 ℚ := ⟨min a.x b.x, min a.y b.y, min a.z b.z⟩

/-- Component-wise maximum, as in `glm::max` on `vec3`. -/
def V3.vmax (a b : V3 ℚ) : V3 ℚ := ⟨max a.x b.x, max a.y b.y, max a.z b.z⟩

instance : Add V4 := ⟨fun a b => ⟨a.x + b.x, a.y + b.y, a.z + b.z, a.w + b.w⟩⟩

instance : SMul ℚ V4 := ⟨fun r a => ⟨r * a.x, r * a.y, r * a.z, r * a.w⟩⟩

@[simp] theorem V4.add_x' (a b : V4) : (a + b).x = a.x + b.x := rfl

@[simp] theorem V4.add_y' (a b : V4) : (a + b).y = a.y + b.y := rfl

@[simp] theorem V4.add_z' (a b : V4) : (a + b).z = a.z + b.z := rfl

@[simp] theorem V4.add_w (a b : V4) : (a + b).w = a.w + b.w := rfl

@[simp] theorem V4.smul_x' (r : ℚ) (a : V4) : (r • a).x = r * a.x := rfl

@[simp] theorem V4.smul_y' (r : ℚ) (a : V4) : (r • a).y = r * a.y := rfl

@[simp] theorem V4.smul_z' (r : ℚ) (a : V4) : (r • a).z = r * a.z := rfl

@[simp] theorem V4.smul_w (r : ℚ) (a : V4) : (r • a).w = r * a.w := rfl

/-- Column-major 4x4 matrix over exact rationals, mirroring `glm::mat4`:
`colJ` is the J-th column, exactly glm's `m[J]`. -/
structure Mat4 where
  col0 : V4
  col1 : V4
  col2 : V4
  col3 : V4
deriving DecidableEq, Repr

/-- Matrix-vector product, as in glm's `mat4 * vec4`
(`m[0]*v.x + m[1]*v.y + m[2]*v.z + m[3]*v.w`, a combination of columns). -/
def Mat4.mulVec (m : Mat4) (v : V4) : V4 :=
  v.x • m.col0 + v.y • m.col1 + v.z • m.col2 + v.w • m.col3

/-- Matrix-matrix product, as in glm's `mat4 * mat4` (column-wise). -/
def Mat4.mul (a b : Mat4) : Mat4 :=
  ⟨a.mulVec b.col0, a.mulVec b.col1, a.mulVec b.col2, a.mulVec b.col3⟩

instance : Mul Mat4 := ⟨Mat4.mul⟩

@[simp] theorem Mat4.mul_col0 (a b : Mat4) : (a * b).col0 = a.mulVec b.col0 := rfl

@[simp] theorem Mat4.mul_col1 (a b : Mat4) : (a * b).col1 = a.mulVec b.col1 := rfl

@[simp] theorem Mat4.mul_col2 (a b : Mat4) : (a * b).col2 = a.mulVec b.col2 := rfl

@[simp] theorem Mat4.mul_col3 (a b : Mat4) : (a * b).col3 = a.mulVec b.col3 := rfl

/-- Identity matrix, `glm::mat4(1)`. -/
def idMat4 : Mat4 :=
  ⟨⟨1, 0, 0, 0⟩, ⟨0, 1, 0, 0⟩, ⟨0, 0, 1, 0⟩, ⟨0, 0, 0, 1⟩⟩

/-- Pure translation matrix (identity with `v` in the last column). -/
def translateMat4 (v : V3 ℚ) : Mat4 :=
  ⟨⟨1, 0, 0, 0⟩, ⟨0, 1, 0, 0⟩, ⟨0, 0, 1, 0⟩, ⟨v.x, v.y, v.z, 1⟩⟩

/-- Pure scale matrix (diagonal `v.x, v.y, v.z, 1`). -/
def scaleMat4 (v : V3 ℚ) : Mat4 :=
  ⟨⟨v.x, 0, 0, 0⟩, ⟨0, v.y, 0, 0⟩, ⟨0, 0, v.z, 0⟩, ⟨0, 0, 0, 1⟩⟩

/-- glm's `translate(m, v)`: copy `m` and set the last column to
`m[0]*v.x + m[1]*v.y + m[2]*v.z + m[3]`. -/
def glmTranslate (m : Mat4) (v : V3 ℚ) : Mat4 :=
  ⟨m.col0, m.col1, m.col2, v.x • m.col0 + v.y • m.col1 + v.z • m.col2 + m.col3⟩

/-- glm's `scale(m, v)`: scale the first three columns of `m` by the
components of `v`. -/
def glmScale (m : Mat4) (v : V3 ℚ) : Mat4 :=
  ⟨v.x • m.col0, v.y • m.col1, v.z • m.col2, m.col3⟩

/-- Quaternion with `glm::quat` constructor order `(w, x, y, z)`. -/
structure Quat where
  w : ℚ
  x : ℚ
  y : ℚ
  z : ℚ
deriving DecidableEq, Repr

/-- glm's `mat4_cast` on a quaternion: the standard (unit-quaternion)
rotation matrix, embedded in a 4x4 matrix with identity last row/column. -/
def mat4cast (q : Quat) : Mat4 :=
  ⟨⟨1 - 2 * (q.y * q.y + q.z * q.z), 2 * (q.x * q.y + q.w * q.z),
      2 * (q.x * q.z - q.w * q.y), 0⟩,
   ⟨2 * (q.x * q.y - q.w * q.z), 1 - 2 * (q.x * q.x + q.z * q.z),
      2 * (q.y * q.z + q.w * q.x), 0⟩,
   ⟨2 * (q.x * q.z + q.w * q.y), 2 * (q.y * q.z - q.w * q.x),
      1 - 2 * (q.x * q.x + q.y * q.y), 0⟩,
   ⟨0, 0, 0, 1⟩⟩

/-- Reads 16 scalars from a list into a column-major matrix, as the
`glm::mat4(node.matrix[0], ..., node.matrix[15])` constructor call does
(out-of-range entries default to 0). -/
def listToMat4 (l : List ℚ) : Mat4 :=
  ⟨⟨l.getD 0 0, l.getD 1 0, l.getD 2 0, l.getD 3 0⟩,
   ⟨l.getD 4 0, l.getD 5 0, l.getD 6 0, l.getD 7 0⟩,
   ⟨l.getD 8 0, l.getD 9 0, l.getD 10 0, l.getD 11 0⟩,
   ⟨l.getD 12 0, l.getD 13 0, l.getD 14 0, l.getD 15 0⟩⟩

/-- A glTF node as used by `getLocalToWorldMatrix` and the bounds traversal
(`tinygltf::Node`): optional 16-element matrix, optional
translation/rotation/scale lists, optional mesh index (< 0 when absent),
child node indices. -/
structure Node where
  matrix : List ℚ
  translation : List ℚ
  rotation : List ℚ
  scale : List ℚ
  mesh : Int
  children : List Nat
deriving DecidableEq, Repr, Inhabited

/-- Translation factor of the node's local transform: the `T` branch of
`getLocalToWorldMatrix` (identity when the translation field is empty). -/
def nodeT (node : Node) (parentMatrix : Mat4) : Mat4 :=
  if node.translation = [] then parentMatrix
  else glmTranslate parentMatrix
    ⟨node.translation.getD 0 0, node.translation.getD 1 0, node.translation.getD 2 0⟩

/-- Quaternion read from the node's rotation field.  The document stores
components in `[x, y, z, w]` order; the code passes them to the `glm::quat`
constructor (whose prototype order is `w, x, y, z`) as
`quat(rotation[3], rotation[0], rotation[1], rotation[2])`, the identity
quaternion when the field is empty. -/
def nodeQuat (node : Node) : Quat :=
  if node.rotation = [] then ⟨1, 0, 0, 0⟩
  else ⟨node.rotation.getD 3 0, node.rotation.getD 0 0,
    node.rotation.getD 1 0, node.rotation.getD 2 0⟩

/-- Embedding of `getLocalToWorldMatrix` (gltf.cpp): if the node carries a
non-empty explicit matrix, return `parentMatrix *` that matrix; otherwise
compose translate, quaternion rotate and scale onto the parent matrix. -/
def getLocalToWorldMatrix (node : Node) (parentMatrix : Mat4) : Mat4 :=
  if node.matrix = [] then
    (if node.scale = [] then nodeT node parentMatrix * mat4cast (nodeQuat node)
     else glmScale (nodeT node parentMatrix * mat4cast (nodeQuat node))
       ⟨node.scale.getD 0 0, node.scale.getD 1 0, node.scale.getD 2 0⟩)
  else parentMatrix * listToMat4 node.matrix

/-- Claim-side translation matrix of a node: the translation matrix when the
field is present, the identity when absent. -/
def nodeTmat (node : Node) : Mat4 :=
  if node.translation = [] then idMat4
  else translateMat4
    ⟨node.translation.getD 0 0, node.translation.getD 1 0, node.translation.getD 2 0⟩

/-- Claim-side scale matrix of a node: the scale matrix when the field is
present, the identity when absent. -/
def nodeSmat (node : Node) : Mat4 :=
  if node.scale = [] then idMat4
  else scaleMat4 ⟨node.scale.getD 0 0, node.scale.getD 1 0, node.scale.getD 2 0⟩

/-- A glTF accessor as used by the bounds traversal (`tinygltf::Accessor`):
component type code, buffer-view index, byte offset, element count, and
vector-width "type" code (3 = `TINYGLTF_TYPE_VEC3`). -/
structure Accessor where
  componentType : Nat
  bufferView : Nat
  byteOffset : Nat
  count : Nat
  type : Nat
deriving DecidableEq, Repr, Inhabited

/-- A glTF buffer view (`tinygltf::BufferView`): buffer index, byte offset,
byte stride (0 when the document leaves the stride implicit). -/
structure BufferView where
  buffer : Nat
  byteOffset : Nat
  byteStride : Nat
deriving DecidableEq, Repr, Inhabited

/-- A raw glTF buffer: its bytes (each < 256), little-endian as mandated by
the glTF format. -/
structure Buffer where
  data : List Nat
deriving DecidableEq, Repr, Inhabited

/-- Attribute-map key used by the traversal. -/
def positionKey : String := "POSITION"

/-- A mesh primitive (`tinygltf::Primitive`): attribute-name-to-accessor map
and optional index-accessor reference (< 0 when non-indexed). -/
structure Primitive where
  attributes : List (String × Nat)
  indices : Int
deriving DecidableEq, Repr, Inhabited

/-- A mesh (`tinygltf::Mesh`): its primitives. -/
structure Mesh where
  primitives : List Primitive
deriving DecidableEq, Repr, Inhabited

/-- A scene (`tinygltf::Scene`): its root node indices. -/
structure Scene where
  nodes : List Nat
deriving DecidableEq, Repr, Inhabited

/-- A glTF document as consumed by `computeSceneBounds`
(`tinygltf::Model`): default-scene index (< 0 when absent) and the arenas of
scenes, nodes, meshes, accessors, buffer views and buffers. -/
structure Model where
  defaultScene : Int
  scenes : List Scene
  nodes : List Node
  meshes : List Mesh
  accessors : List Accessor
  bufferViews : List BufferView
  buffers : List Buffer
deriving DecidableEq, Repr, Inhabited

/-- Largest finite `float` value, `std::numeric_limits<float>::max()`,
exactly `(2 - 2^-23) * 2^127`. -/
def floatMax : ℚ := 2 ^ 128 - 2 ^ 104

/-- Lowest finite `float` value, `std::numeric_limits<float>::lowest()`. -/
def floatLowest : ℚ := -(2 ^ 128 - 2 ^ 104)

/-- Reads one byte (`uint8_t`) from a buffer; out-of-range reads default
to 0 (undefined behavior in the C++). -/
def readU8 (data : List Nat) (off : Nat) : Nat := data.getD off 0

/-- Reads a little-endian `uint16_t` from a buffer. -/
def readU16 (data : List Nat) (off : Nat) : Nat :=
  readU8 data off + 2 ^ 8 * readU8 data (off + 1)

/-- Reads a little-endian `uint32_t` from a buffer. -/
def readU32 (data : List Nat) (off : Nat) : Nat :=
  readU8 data off + 2 ^ 8 * readU8 data (off + 1) + 2 ^ 16 * readU8 data (off + 2) +
    2 ^ 24 * readU8 data (off + 3)

/-- Exact value of an IEEE 754 binary32 word: sign bit, 8-bit biased
exponent, 23-bit mantissa.  Normal values are `(2^23 + m) * 2^(e-150)`,
subnormals `m * 2^-149`; the non-finite encodings (biased exponent 255) lie
outside exact rational arithmetic and are mapped to 0. -/
def decodeF32 (word : Nat) : ℚ :=
  let s : Nat := word / 2 ^ 31 % 2
  let e : Nat := word / 2 ^ 23 % 2 ^ 8
  let m : Nat := word % 2 ^ 23
  let mag : ℚ :=
    if e = 0 then (m : ℚ) / 2 ^ 149
    else if e = 255 then 0
    else ((2 ^ 23 + m : ℕ) : ℚ) * 2 ^ e / 2 ^ 150
  if s = 1 then -mag else mag

/-- Reads a little-endian `float` from a buffer. -/
def readF32 (data : List Nat) (off : Nat) : ℚ := decodeF32 (readU32 data off)

/-- Reads a `glm::vec3` (three consecutive floats) from a buffer, as the
`*(const glm::vec3 *)&buffer.data[...]` reinterpretation does. -/
def readVec3 (data : List Nat) (off : Nat) : V3 ℚ :=
  ⟨readF32 data off, readF32 data (off + 4), readF32 data (off + 8)⟩

/-- tinygltf component-type code for `unsigned byte` indices. -/
def componentTypeUnsignedByte : Nat := 5121

/-- tinygltf component-type code for `unsigned short` indices. -/
def componentTypeUnsignedShort : Nat := 5123

/-- tinygltf component-type code for `unsigned int` indices. -/
def componentTypeUnsignedInt : Nat := 5125

/-- First `switch` over the index component type in `computeSceneBounds`:
yields the effective index byte stride (the declared stride, or the
component's natural size 1/2/4 when the declared stride is 0), or `none`
for any other component type (the primitive is then skipped). -/
def indexStride (componentType viewStride : Nat) : Option Nat :=
  if componentType = componentTypeUnsignedByte then
    some (if viewStride = 0 then 1 else viewStride)
  else if componentType = componentTypeUnsignedShort then
    some (if viewStride = 0 then 2 else viewStride)
  else if componentType = componentTypeUnsignedInt then
    some (if viewStride = 0 then 4 else viewStride)
  else none

/-- Second `switch` over the index component type in `computeSceneBounds`:
decodes one index of the given component type at the given byte offset. -/
def readIndex (componentType : Nat) (data : List Nat) (off : Nat) : Nat :=
  if componentType = componentTypeUnsignedByte then readU8 data off
  else if componentType = componentTypeUnsignedShort then readU16 data off
  else if componentType = componentTypeUnsignedInt then readU32 data off
  else 0

/-- Loop body shared by both vertex loops of `computeSceneBounds`: transform
the raw local position to world space with homogeneous coordinate 1 and fold
it into the min/max accumulator. -/
def boundsFold (modelMatrix : Mat4) (acc : V3 ℚ × V3 ℚ) (localPosition : V3 ℚ) :
    V3 ℚ × V3 ℚ :=
  let h := modelMatrix.mulVec ⟨localPosition.x, localPosition.y, localPosition.z, 1⟩
  let worldPosition : V3 ℚ := ⟨h.x, h.y, h.z⟩
  (acc.1.vmin worldPosition, acc.2.vmax worldPosition)

/-- Per-primitive part of `computeSceneBounds`: look up `POSITION`, skip on
absence or non-VEC3 accessors, then iterate the (indexed or non-indexed)
vertices, folding each transformed position into the accumulator. -/
def processPrimitive (model : Model) (modelMatrix : Mat4) (prim : Primitive)
    (acc : V3 ℚ × V3 ℚ) : V3 ℚ × V3 ℚ :=
  match prim.attributes.lookup positionKey with
  | none => acc
  | some posAccIdx =>
    let positionAccessor := model.accessors.getD posAccIdx default
    if positionAccessor.type ≠ 3 then acc
    else
      let positionBufferView := model.bufferViews.getD positionAccessor.bufferView default
      let byteOffset := positionAccessor.byteOffset + positionBufferView.byteOffset
      let positionBuffer := model.buffers.getD positionBufferView.buffer default
      let positionByteStride :=
        if positionBufferView.byteStride = 0 then 12 else positionBufferView.byteStride
      if 0 ≤ prim.indices then
        let indexAccessor := model.accessors.getD prim.indices.toNat default
        let indexBufferView := model.bufferViews.getD indexAccessor.bufferView default
        let indexByteOffset := indexAccessor.byteOffset + indexBufferView.byteOffset
        let indexBuffer := model.buffers.getD indexBufferView.buffer default
        match indexStride indexAccessor.componentType indexBufferView.byteStride with
        | none => acc
        | some indexByteStride =>
          (List.range indexAccessor.count).foldl
            (fun a i =>
              boundsFold modelMatrix a
                (readVec3 positionBuffer.data
                  (byteOffset + positionByteStride *
                    readIndex indexAccessor.componentType indexBuffer.data
                      (indexByteOffset + indexByteStride * i)))) acc
      else
        (List.range positionAccessor.count).foldl
          (fun a i =>
            boundsFold modelMatrix a
              (readVec3 positionBuffer.data (byteOffset + positionByteStride * i))) acc

/-- Per-mesh part of `computeSceneBounds`: fold over the primitives. -/
def processMesh (model : Model) (modelMatrix : Mat4) (mesh : Mesh)
    (acc : V3 ℚ × V3 ℚ) : V3 ℚ × V3 ℚ :=
  mesh.primitives.foldl (fun a p => processPrimitive model modelMatrix p a) acc

/-- Recursive `updateBounds` helper of `computeSceneBounds`: process the
node's mesh (if any) under its local-to-world matrix, then recurse into the
children.  The C++ recursion is bounded only by the (acyclic, per the glTF
format) node forest; the embedding carries explicit fuel, invoked with the
node-arena size so that every acyclic document is fully traversed. -/
def updateBounds (model : Model) : Nat → Nat → Mat4 → V3 ℚ × V3 ℚ → V3 ℚ × V3 ℚ
  | 0, _, _, acc => acc
  | fuel + 1, nodeIdx, parentMatrix, acc =>
    let node := model.nodes.getD nodeIdx default
    let modelMatrix := getLocalToWorldMatrix node parentMatrix
    let acc1 :=
      if 0 ≤ node.mesh then
        processMesh model modelMatrix (model.meshes.getD node.mesh.toNat default) acc
      else acc
    node.children.foldl (fun a c => updateBounds model fuel c modelMatrix a) acc1

/-- Initial accumulator of `computeSceneBounds`:
`bboxMin = vec3(std::numeric_limits<float>::max())`,
`bboxMax = vec3(std::numeric_limits<float>::lowest())`. -/
def initBounds : V3 ℚ × V3 ℚ :=
  (⟨floatMax, floatMax, floatMax⟩, ⟨floatLowest, floatLowest, floatLowest⟩)

/-- Embedding of `computeSceneBounds` (gltf.cpp): start from the degenerate
inverted box; when a default scene exists, run `updateBounds` from each of
its root nodes with the identity parent matrix. -/
def computeSceneBounds (model : Model) : V3 ℚ × V3 ℚ :=
  if 0 ≤ model.defaultScene then
    ((model.scenes.getD model.defaultScene.toNat default).nodes).foldl
      (fun acc n => updateBounds model model.nodes.length n idMat4 acc) initBounds
  else initBounds

/-- Modelled from the spec: the "+inf" value the spec and the claim use to
describe the bounds initialization, in the rationals extended with an
actual point at infinity (`WithTop ℚ`), for comparison with the code's
finite `float` initialization. -/
def specPlusInf : WithTop ℚ := ⊤

/-- glm's `length(v)`: the Euclidean norm, `sqrt(dot(v, v))`. -/
noncomputable def V3.norm (v : V3 ℝ) : ℝ := Real.sqrt (v.dot v)

/-- glm's `normalize(v)`: `v` scaled by the inverse of its length. -/
noncomputable def V3.normalize (v : V3 ℝ) : V3 ℝ := (1 / v.norm) • v

/-- Rotation kernel of glm's `rotate(mat4(1), angle, axis)` applied to a
direction (`w = 0`) vector, with the cosine `c`, sine `s` and the already
normalized axis `a` abstracted out: the matrix
`R[i][j] = c*delta + (1-c)*a[i]*a[j] ± s*a[k]` applied to `v`. -/
def rotAux (c s : ℝ) (a v : V3 ℝ) : V3 ℝ :=
  ⟨(c + (1 - c) * a.x * a.x) * v.x + ((1 - c) * a.y * a.x - s * a.z) * v.y +
      ((1 - c) * a.z * a.x + s * a.y) * v.z,
   ((1 - c) * a.x * a.y + s * a.z) * v.x + (c + (1 - c) * a.y * a.y) * v.y +
      ((1 - c) * a.z * a.y - s * a.x) * v.z,
   ((1 - c) * a.x * a.z - s * a.y) * v.x + ((1 - c) * a.y * a.z + s * a.x) * v.y +
      (c + (1 - c) * a.z * a.z) * v.z⟩

/-- glm's `vec3(rotate(mat4(1), radians, axis) * vec4(v, 0))`: rotate the
direction `v` by `radians` around `axis` (glm normalizes the axis). -/
noncomputable def rotate3 (radians : ℝ) (axis v : V3 ℝ) : V3 ℝ :=
  rotAux (Real.cos radians) (Real.sin radians) axis.normalize v

/-- The `Camera` value type of cameras.hpp: eye, center and up vectors. -/
structure Camera where
  eye : V3 ℝ
  center : V3 ℝ
  up : V3 ℝ

namespace Camera

/-- The 3-argument `Camera` constructor: store eye and center, and replace
`up` by `normalize(cross(front, cross(up, front)))` with
`front = center - eye` (the code asserts `cross(up, front) != 0`). -/
noncomputable def mk3 (e c u : V3 ℝ) : Camera :=
  ⟨e, c, ((c - e).cross (u.cross (c - e))).normalize⟩

/-- The camera's (un-normalized) front vector, `center - eye`. -/
def frontRaw (cam : Camera) : V3 ℝ := cam.center - cam.eye

/-- The camera's normalized left axis, `left()`:
`normalize(cross(up, center - eye))`. -/
noncomputable def leftAxis (cam : Camera) : V3 ℝ :=
  (cam.up.cross (cam.center - cam.eye)).normalize

/-- `Camera::truckLeft`: translate eye and center along the normalized left
axis. -/
noncomputable def truckLeft (cam : Camera) (offset : ℝ) : Camera :=
  let front := cam.center - cam.eye
  let left := (cam.up.cross front).normalize
  ⟨cam.eye + offset • left, cam.center + offset • left, cam.up⟩

/-- `Camera::pedestalUp`: translate eye and center along `up`. -/
noncomputable def pedestalUp (cam : Camera) (offset : ℝ) : Camera :=
  ⟨cam.eye + offset • cam.up, cam.center + offset • cam.up, cam.up⟩

/-- `Camera::dollyIn`: translate eye and center along the normalized front
vector. -/
noncomputable def dollyIn (cam : Camera) (offset : ℝ) : Camera :=
  let front := (cam.center - cam.eye).normalize
  ⟨cam.eye + offset • front, cam.center + offset • front, cam.up⟩

/-- `Camera::moveLocal`: translate eye and center by the combination of the
normalized left, up and normalized front axes. -/
noncomputable def moveLocal (cam : Camera)
    (truckLeftOffset pedestalUpOffset dollyInOffset : ℝ) : Camera :=
  let front := (cam.center - cam.eye).normalize
  let left := (cam.up.cross front).normalize
  let t := truckLeftOffset • left + pedestalUpOffset • cam.up + dollyInOffset • front
  ⟨cam.eye + t, cam.center + t, cam.up⟩

/-- `Camera::rollRight`: rotate `up` around the (un-normalized) front
vector. -/
noncomputable def rollRight (cam : Camera) (radians : ℝ) : Camera :=
  ⟨cam.eye, cam.center, rotate3 radians (cam.center - cam.eye) cam.up⟩

/-- `Camera::tiltDown`: rotate the front vector and `up` around
`cross(up, front)`. -/
noncomputable def tiltDown (cam : Camera) (radians : ℝ) : Camera :=
  let front := cam.center - cam.eye
  let left := cam.up.cross front
  ⟨cam.eye, cam.eye + rotate3 radians left front, rotate3 radians left cam.up⟩

/-- `Camera::panLeft`: rotate the front vector around `up`, leaving `up`
untouched. -/
noncomputable def panLeft (cam : Camera) (radians : ℝ) : Camera :=
  let front := cam.center - cam.eye
  ⟨cam.eye, cam.eye + rotate3 radians cam.up front, cam.up⟩

/-- `Camera::rotateLocal`: roll `up` around the front vector, tilt the front
vector and the rolled `up` around the new `cross(up, front)`, then pan the
tilted front vector around the tilted `up` (the intermediate center
assignment is overwritten by the final one). -/
noncomputable def rotateLocal (cam : Camera)
    (rollRightAngle tiltDownAngle panLeftAngle : ℝ) : Camera :=
  let front := cam.center - cam.eye
  let up1 := rotate3 rollRightAngle front cam.up
  let left := up1.cross front
  let newFront := rotate3 tiltDownAngle left front
  let up2 := rotate3 tiltDownAngle left up1
  let newNewFront := rotate3 panLeftAngle up2 newFront
  ⟨cam.eye, cam.eye + newNewFront, up2⟩

/-- `Camera::rotateWorld`: rotate the front vector and `up` around an
externally supplied axis, keeping `eye` fixed. -/
noncomputable def rotateWorld (cam : Camera) (radians : ℝ) (axis : V3 ℝ) : Camera :=
  let front := cam.center - cam.eye
  ⟨cam.eye, cam.eye + rotate3 radians axis front, rotate3 radians axis cam.up⟩

end Camera

/-- The orthogonality invariant maintained by `Camera`: `up` is orthogonal
to `front = center - eye` and of unit length (stated on dot products), with
the nondegeneracy condition `front ≠ 0` that the motion code needs for its
normalizations. -/
def CamInv (cam : Camera) : Prop :=
  cam.up.dot (cam.center - cam.eye) = 0 ∧ cam.up.dot cam.up = 1 ∧
    cam.center - cam.eye ≠ 0

/-- Input snapshot consumed by `FirstPersonCameraController::update`: the
polled key states (W, A, S, D, UP, DOWN, Q, E), the left mouse button, and
the cursor position. -/
structure FPInput where
  keyW : Bool
  keyA : Bool
  keyS : Bool
  keyD : Bool
  keyUp : Bool
  keyDown : Bool
  keyQ : Bool
  keyE : Bool
  leftButton : Bool
  cursor : ℝ × ℝ

/-- State of a `FirstPersonCameraController`: speed, world up axis, the
drag flag (`m_LeftButtonPressed`), the last cursor position, and the held
camera. -/
structure FirstPersonCameraController where
  fSpeed : ℝ
  worldUpAxis : V3 ℝ
  leftButtonPressed : Bool
  lastCursorPosition : ℝ × ℝ
  camera : Camera

/-- Drag flag after the button-edge tracking at the top of
`FirstPersonCameraController::update`. -/
def fpPressedAfter (ctl : FirstPersonCameraController) (inp : FPInput) : Bool :=
  if inp.leftButton && !ctl.leftButtonPressed then true
  else if !inp.leftButton && ctl.leftButtonPressed then false
  else ctl.leftButtonPressed

/-- Cursor baseline after the button-edge tracking: on the press edge the
current cursor position is captured, otherwise the stored one is kept. -/
def fpBaseline (ctl : FirstPersonCameraController) (inp : FPInput) : ℝ × ℝ :=
  if inp.leftButton && !ctl.leftButtonPressed then inp.cursor
  else ctl.lastCursorPosition

/-- The cursor delta of `FirstPersonCameraController::update`: current
cursor minus baseline while dragging, zero otherwise. -/
def fpCursorDelta (ctl : FirstPersonCameraController) (inp : FPInput) : ℝ × ℝ :=
  if fpPressedAfter ctl inp then
    (inp.cursor.1 - (fpBaseline ctl inp).1, inp.cursor.2 - (fpBaseline ctl inp).2)
  else (0, 0)

/-- Stored cursor position after the update. -/
def fpLastCursorAfter (ctl : FirstPersonCameraController) (inp : FPInput) : ℝ × ℝ :=
  if fpPressedAfter ctl inp then inp.cursor else fpBaseline ctl inp

/-- Accumulated truck motion: `+speed*elapsedTime` for A, `-` for D. -/
def fpTruckLeft (ctl : FirstPersonCameraController) (inp : FPInput)
    (elapsedTime : ℝ) : ℝ :=
  (if inp.keyA then ctl.fSpeed * elapsedTime else 0) +
    (if inp.keyD then -(ctl.fSpeed * elapsedTime) else 0)

/-- Accumulated pedestal motion: `+speed*elapsedTime` for UP, `-` for
DOWN. -/
def fpPedestalUp (ctl : FirstPersonCameraController) (inp : FPInput)
    (elapsedTime : ℝ) : ℝ :=
  (if inp.keyUp then ctl.fSpeed * elapsedTime else 0) +
    (if inp.keyDown then -(ctl.fSpeed * elapsedTime) else 0)

/-- Accumulated dolly motion: `+speed*elapsedTime` for W, `-` for S. -/
def fpDollyIn (ctl : FirstPersonCameraController) (inp : FPInput)
    (elapsedTime : ℝ) : ℝ :=
  (if inp.keyW then ctl.fSpeed * elapsedTime else 0) +
    (if inp.keyS then -(ctl.fSpeed * elapsedTime) else 0)

/-- Accumulated roll motion: fixed `-0.001` per tick for Q, `+0.001` for E
(independent of elapsed time, as in the source). -/
def fpRollRightAngle (inp : FPInput) : ℝ :=
  (if inp.keyQ then -0.001 else 0) + (if inp.keyE then 0.001 else 0)

/-- The pan angle derived from the cursor delta (sign inverted:
cursor going right gives a negative pan-left angle). -/
def fpPanLeftAngle (ctl : FirstPersonCameraController) (inp : FPInput) : ℝ :=
  -0.01 * (fpCursorDelta ctl inp).1

/-- The tilt angle derived from the cursor delta. -/
def fpTiltDownAngle (ctl : FirstPersonCameraController) (inp : FPInput) : ℝ :=
  0.01 * (fpCursorDelta ctl inp).2

open Classical in
/-- Embedding of `FirstPersonCameraController::update` (cameras.cpp): track
the drag state, accumulate the motion quantities, and either return
`false` leaving the camera untouched (all quantities exactly zero, the
float-to-bool `hasMoved` test) or apply `moveLocal`, then
`rotateLocal(roll, tilt, 0)`, then `rotateWorld(pan, worldUpAxis)` and
return `true`. -/
noncomputable def FirstPersonCameraController.update
    (ctl : FirstPersonCameraController) (inp : FPInput) (elapsedTime : ℝ) :
    Bool × FirstPersonCameraController :=
  if fpTruckLeft ctl inp elapsedTime ≠ 0 ∨ fpPedestalUp ctl inp elapsedTime ≠ 0 ∨
      fpDollyIn ctl inp elapsedTime ≠ 0 ∨ fpPanLeftAngle ctl inp ≠ 0 ∨
      fpTiltDownAngle ctl inp ≠ 0 ∨ fpRollRightAngle inp ≠ 0 then
    (true,
      { ctl with
        leftButtonPressed := fpPressedAfter ctl inp
        lastCursorPosition := fpLastCursorAfter ctl inp
        camera :=
          (((ctl.camera.moveLocal (fpTruckLeft ctl inp elapsedTime)
              (fpPedestalUp ctl inp elapsedTime)
              (fpDollyIn ctl inp elapsedTime)).rotateLocal (fpRollRightAngle inp)
              (fpTiltDownAngle ctl inp) 0).rotateWorld (fpPanLeftAngle ctl inp)
            ctl.worldUpAxis) })
  else
    (false,
      { ctl with
        leftButtonPressed := fpPressedAfter ctl inp
        lastCursorPosition := fpLastCursorAfter ctl inp })

/-- Input snapshot consumed by `TrackballCameraController::update`: the
middle mouse button, the Shift and Ctrl modifier keys, and the cursor
position. -/
structure TBInput where
  middleButton : Bool
  shift : Bool
  ctrl : Bool
  cursor : ℝ × ℝ

/-- State of a `TrackballCameraController`: speed, world up axis, the drag
flag (`m_MiddleButtonPressed`, tracked on the middle button), the last
cursor position, and the held camera. -/
structure TrackballCameraController where
  fSpeed : ℝ
  worldUpAxis : V3 ℝ
  middleButtonPressed : Bool
  lastCursorPosition : ℝ × ℝ
  camera : Camera

/-- Drag flag after the button-edge tracking at the top of
`TrackballCameraController::update`. -/
def tbPressedAfter (ctl : TrackballCameraController) (inp : TBInput) : Bool :=
  if inp.middleButton && !ctl.middleButtonPressed then true
  else if !inp.middleButton && ctl.middleButtonPressed then false
  else ctl.middleButtonPressed

/-- Cursor baseline after the button-edge tracking: on the press edge the
current cursor position is captured, otherwise the stored one is kept. -/
def tbBaseline (ctl : TrackballCameraController) (inp : TBInput) : ℝ × ℝ :=
  if inp.middleButton && !ctl.middleButtonPressed then inp.cursor
  else ctl.lastCursorPosition

/-- The cursor delta of `TrackballCameraController::update`: current cursor
minus baseline while dragging, zero otherwise. -/
def tbCursorDelta (ctl : TrackballCameraController) (inp : TBInput) : ℝ × ℝ :=
  if tbPressedAfter ctl inp then
    (inp.cursor.1 - (tbBaseline ctl inp).1, inp.cursor.2 - (tbBaseline ctl inp).2)
  else (0, 0)

/-- Stored cursor position after the update. -/
def tbLastCursorAfter (ctl : TrackballCameraController) (inp : TBInput) : ℝ × ℝ :=
  if tbPressedAfter ctl inp then inp.cursor else tbBaseline ctl inp

/-- The zoom offset after the clamp: a positive (toward-center) offset is
clamped to `min(offset, l - 1e-4)` where `l` is the view-vector length. -/
noncomputable def tbZoomOffset (mouseOffset l : ℝ) : ℝ :=
  if 0 < mouseOffset then min mouseOffset (l - 1e-4) else mouseOffset

open Classical in
/-- Embedding of `TrackballCameraController::update` (cameras.cpp): track
the middle-button drag state, then dispatch on the modifier keys — Pan when
Shift is held, else Zoom when Ctrl is held, else Orbit — returning `false`
and leaving the camera untouched when the selected mode's cursor deltas are
exactly zero. -/
noncomputable def TrackballCameraController.update
    (ctl : TrackballCameraController) (inp : TBInput) :
    Bool × TrackballCameraController :=
  let delta := tbCursorDelta ctl inp
  let keep : TrackballCameraController :=
    { ctl with
      middleButtonPressed := tbPressedAfter ctl inp
      lastCursorPosition := tbLastCursorAfter ctl inp }
  if inp.shift then
    if 0.01 * delta.1 ≠ 0 ∨ 0.01 * delta.2 ≠ 0 then
      (true, { keep with
        camera := ctl.camera.moveLocal (0.01 * delta.1) (0.01 * delta.2) 0 })
    else (false, keep)
  else if inp.ctrl then
    if 0.01 * delta.1 = 0 then (false, keep)
    else
      let viewVector := ctl.camera.center - ctl.camera.eye
      let l := viewVector.norm
      let translationVector :=
        tbZoomOffset (0.01 * delta.1) l • ((1 / l) • viewVector)
      (true, { keep with
        camera := Camera.mk3 (ctl.camera.eye + translationVector)
          ctl.camera.center ctl.worldUpAxis })
  else
    if 0.01 * delta.2 ≠ 0 ∨ -0.01 * delta.1 ≠ 0 then
      let depthAxis := ctl.camera.eye - ctl.camera.center
      let finalDepthAxis :=
        rotate3 (-0.01 * delta.1) ctl.worldUpAxis
          (rotate3 (0.01 * delta.2) ctl.camera.leftAxis depthAxis)
      (true, { keep with
        camera := Camera.mk3 (ctl.camera.center + finalDepthAxis)
          ctl.camera.center ctl.worldUpAxis })
    else (false, keep)

/-- Concrete node with both an explicit matrix and T/R/S fields, used to
instantiate C1. -/
def exNodeC1 : Node :=
  { matrix := [2, 0, 0, 0, 0, 2, 0, 0, 0, 0, 2, 0, 0, 0, 0, 1],
    translation := [5, 0, 0], rotation := [0, 0, 0, 1], scale := [3, 3, 3],
    mesh := -1, children := [] }

/-- Concrete matrix-less node with translation, identity-quaternion
rotation and scale, used to instantiate C2. -/
def exNodeC2 : Node :=
  { matrix := [], translation := [1, 2, 3], rotation := [0, 0, 0, 1],
    scale := [2, 2, 2], mesh := -1, children := [] }

/-- A document without a default scene (tinygltf stores -1). -/
def emptyModel : Model :=
  { defaultScene := -1, scenes := [], nodes := [], meshes := [], accessors := [],
    bufferViews := [], buffers := [] }

/-- Byte content of a buffer holding the three packed float triples
`(0,0,0), (1,0,0), (0,1,0)` (1.0f is the little-endian word
`00 00 80 3f`). -/
def triPositions : List Nat :=
  [0, 0, 0, 0, 0, 0, 0, 0, 0, 0, 0, 0,
   0, 0, 128, 63, 0, 0, 0, 0, 0, 0, 0, 0,
   0, 0, 0, 0, 0, 0, 128, 63, 0, 0, 0, 0]

/-- A document whose default scene holds one untransformed node with a
single non-indexed triangle with positions `(0,0,0), (1,0,0), (0,1,0)`. -/
def triModel : Model :=
  { defaultScene := 0,
    scenes := [{ nodes := [0] }],
    nodes := [{ matrix := [], translation := [], rotation := [], scale := [],
                mesh := 0, children := [] }],
    meshes := [{ primitives := [{ attributes := [(positionKey, 0)], indices := -1 }] }],
    accessors := [{ componentType := 5126, bufferView := 0, byteOffset := 0,
                    count := 3, type := 3 }],
    bufferViews := [{ buffer := 0, byteOffset := 0, byteStride := 0 }],
    buffers := [{ data := triPositions }] }

/-- An indexed primitive whose index accessor (number 1 below) has the
unsupported component type 5126 (`FLOAT`). -/
def badPrim : Primitive := { attributes := [(positionKey, 0)], indices := 1 }

/-- A document containing `badPrim`: position accessor 0 is a well-formed
VEC3, index accessor 1 declares component type 5126, which the bounds
traversal must skip. -/
def badIndexModel : Model :=
  { defaultScene := 0,
    scenes := [{ nodes := [0] }],
    nodes := [{ matrix := [], translation := [], rotation := [], scale := [],
                mesh := 0, children := [] }],
    meshes := [{ primitives := [badPrim] }],
    accessors := [{ componentType := 5126, bufferView := 0, byteOffset := 0,
                    count := 3, type := 3 },
                  { componentType := 5126, bufferView := 0, byteOffset := 0,
                    count := 3, type := 65 }],
    bufferViews := [{ buffer := 0, byteOffset := 0, byteStride := 0 }],
    buffers := [{ data := triPositions }] }

/-- Concrete camera looking down the negative z axis, one unit away. -/
noncomputable def exCamera : Camera := ⟨⟨0, 0, 0⟩, ⟨0, 0, -1⟩, ⟨0, 1, 0⟩⟩

/-- Concrete camera looking down the negative z axis, five units away. -/
noncomputable def exCameraFar : Camera := ⟨⟨0, 0, 0⟩, ⟨0, 0, -5⟩, ⟨0, 1, 0⟩⟩

/-- First-person input snapshot with every key and button released and the
cursor at the origin. -/
def exIdleFPInput : FPInput :=
  ⟨false, false, false, false, false, false, false, false, false, (0, 0)⟩

/-- Idle first-person controller holding `exCamera`. -/
noncomputable def exIdleFP : FirstPersonCameraController :=
  ⟨1, ⟨0, 1, 0⟩, false, (0, 0), exCamera⟩

/-- Trackball controller in a middle-drag, last cursor at the origin,
holding `exCameraFar`. -/
noncomputable def exTB : TrackballCameraController :=
  ⟨1, ⟨0, 1, 0⟩, true, (0, 0), exCameraFar⟩

/-- Trackball zoom input: middle drag, Ctrl held, cursor moved to
`(100, 0)`. -/
def exTBInputZoom : TBInput := ⟨true, false, true, (100, 0)⟩

/-- Trackball orbit input: middle drag, no modifier, cursor moved to
`(0, 50)`. -/
def exTBInputOrbit : TBInput := ⟨true, false, false, (0, 50)⟩

/-- Trackball input with both Shift and Ctrl held. -/
def exTBInputPanBoth : TBInput := ⟨true, true, true, (100, 0)⟩

/-- Trackball input with no drag and no modifier. -/
def exTBInputIdle : TBInput := ⟨false, false, false, (0, 0)⟩

lemma V3.ext' {α : Type} : ∀ {a b : V3 α}, a.x = b.x → a.y = b.y → a.z = b.z → a = b := by
  rintro ⟨_, _, _⟩ ⟨_, _, _⟩ rfl rfl rfl
  rfl

lemma V4.extV4 : ∀ {a b : V4}, a.x = b.x → a.y = b.y → a.z = b.z → a.w = b.w → a = b := by
  rintro ⟨_, _, _, _⟩ ⟨_, _, _, _⟩ rfl rfl rfl rfl
  rfl

lemma Mat4.extMat4 : ∀ {a b : Mat4},
    a.col0 = b.col0 → a.col1 = b.col1 → a.col2 = b.col2 → a.col3 = b.col3 → a = b := by
  rintro ⟨_, _, _, _⟩ ⟨_, _, _, _⟩ rfl rfl rfl rfl
  rfl

lemma Mat4.mul_idMat4 (m : Mat4) : m * idMat4 = m := by
  apply Mat4.extMat4 <;> apply V4.extV4 <;> simp [Mat4.mulVec, idMat4]

lemma glmTranslate_eq (m : Mat4) (v : V3 ℚ) : glmTranslate m v = m * translateMat4 v := by
  apply Mat4.extMat4 <;> apply V4.extV4 <;> simp [glmTranslate, translateMat4, Mat4.mulVec]

lemma glmScale_eq (m : Mat4) (v : V3 ℚ) : glmScale m v = m * scaleMat4 v := by
  apply Mat4.extMat4 <;> apply V4.extV4 <;> simp [glmScale, scaleMat4, Mat4.mulVec]

lemma mat4cast_one : mat4cast ⟨1, 0, 0, 0⟩ = idMat4 := by
  apply Mat4.extMat4 <;> apply V4.extV4 <;> norm_num [mat4cast, idMat4]

lemma nodeT_eq (node : Node) (parentMatrix : Mat4) :
    nodeT node parentMatrix = parentMatrix * nodeTmat node := by
  rw [nodeT, nodeTmat]
  by_cases ht : node.translation = []
  · rw [if_pos ht, if_pos ht, Mat4.mul_idMat4]
  · rw [if_neg ht, if_neg ht, glmTranslate_eq]

/-- C1: for every node whose matrix field is non-empty,
`getLocalToWorldMatrix(node, parentMatrix)` returns exactly
`parentMatrix * matrix` (the 16 elements read column-major), and the
translation/rotation/scale fields have no effect on the result even when
they are also present. -/
theorem C1_explicit_matrix (node : Node) (parentMatrix : Mat4)
    (h : node.matrix ≠ []) :
    getLocalToWorldMatrix node parentMatrix = parentMatrix * listToMat4 node.matrix ∧
    ∀ t r s : List ℚ,
      getLocalToWorldMatrix
        { node with translation := t, rotation := r, scale := s } parentMatrix =
        parentMatrix * listToMat4 node.matrix := by
  refine ⟨?_, fun t r s => ?_⟩
  · rw [getLocalToWorldMatrix, if_neg h]
  · show (if node.matrix = [] then _ else parentMatrix * listToMat4 node.matrix) = _
    rw [if_neg h]

/-- Witness for C1 at a concrete node carrying both an explicit matrix and
translation/rotation/scale fields. -/
theorem C1_explicit_matrix_witness :
    getLocalToWorldMatrix exNodeC1 idMat4 = idMat4 * listToMat4 exNodeC1.matrix :=
  (C1_explicit_matrix exNodeC1 idMat4 (by decide)).1

/-- C2: for every node with an empty matrix field, the result is
`parentMatrix * T * R * S`, with identity factors for absent fields, the
rotation quaternion reordered from the stored `[x, y, z, w]` to glm's
`(w, x, y, z)`; in particular, rotation `[0, 0, 0, 1]` (the identity
quaternion) yields `parentMatrix * T * S`. -/
theorem C2_trs_compose (node : Node) (parentMatrix : Mat4)
    (h : node.matrix = []) :
    getLocalToWorldMatrix node parentMatrix =
      parentMatrix * nodeTmat node * mat4cast (nodeQuat node) * nodeSmat node ∧
    (node.rotation = [0, 0, 0, 1] →
      getLocalToWorldMatrix node parentMatrix =
        parentMatrix * nodeTmat node * nodeSmat node) := by
  have key : getLocalToWorldMatrix node parentMatrix =
      parentMatrix * nodeTmat node * mat4cast (nodeQuat node) * nodeSmat node := by
    rw [getLocalToWorldMatrix, if_pos h]
    by_cases hs : node.scale = []
    · rw [if_pos hs, nodeSmat, if_pos hs, Mat4.mul_idMat4, nodeT_eq]
    · rw [if_neg hs, nodeSmat, if_neg hs, glmScale_eq, nodeT_eq]
  refine ⟨key, fun hr => ?_⟩
  have hq : nodeQuat node = ⟨1, 0, 0, 0⟩ := by
    rw [nodeQuat, hr]
    norm_num
  rw [key, hq, mat4cast_one, Mat4.mul_idMat4]

/-- Witness for C2 at a concrete node with translation, identity-quaternion
rotation `[0, 0, 0, 1]` and scale. -/
theorem C2_trs_compose_witness :
    getLocalToWorldMatrix exNodeC2 idMat4 =
      idMat4 * nodeTmat exNodeC2 * nodeSmat exNodeC2 :=
  (C2_trs_compose exNodeC2 idMat4 rfl).2 (by norm_num [exNodeC2])

/-- C4 counterexample: the bounds accumulator is initialized to the largest
finite float value `std::numeric_limits<float>::max()` (and its negation),
not to `+inf`/`-inf` as the claim states: on the concrete document with no
default scene, the returned (unchanged) initialization value is a finite
rational, not the point at infinity the spec's words describe. -/
theorem C4_empty_bounds_counterexample :
    ((computeSceneBounds emptyModel).1.x : WithTop ℚ) ≠ specPlusInf := by
  have h : computeSceneBounds emptyModel = initBounds := by
    simp [computeSceneBounds, emptyModel]
  rw [h]
  simp [initBounds, specPlusInf]

/-- C4 (amended): `computeSceneBounds` initializes its accumulator to
`min = (FLT_MAX, FLT_MAX, FLT_MAX)` and
`max = (FLT_LOWEST, FLT_LOWEST, FLT_LOWEST)` — the largest/lowest finite
float values, not infinities — and for every document with no default scene
it returns these initialization values unchanged, a degenerate inverted box
satisfying `min.x > max.x`. -/
theorem C4_empty_bounds (model : Model) (h : model.defaultScene < 0) :
    computeSceneBounds model = initBounds ∧
    initBounds =
      (⟨floatMax, floatMax, floatMax⟩, ⟨floatLowest, floatLowest, floatLowest⟩) ∧
    (computeSceneBounds model).2.x < (computeSceneBounds model).1.x := by
  have key : computeSceneBounds model = initBounds := by
    rw [computeSceneBounds, if_neg (not_le.mpr h)]
  refine ⟨key, rfl, ?_⟩
  rw [key]
  norm_num [initBounds, floatMax, floatLowest]

/-- Witness for C4 (amended) at the concrete document with no default
scene. -/
theorem C4_empty_bounds_witness :
    computeSceneBounds emptyModel = initBounds ∧
    (computeSceneBounds emptyModel).2.x < (computeSceneBounds emptyModel).1.x :=
  ⟨(C4_empty_bounds emptyModel (by decide)).1,
   (C4_empty_bounds emptyModel (by decide)).2.2⟩

/-- C6: every visited vertex position is transformed to world space as
`vec3(worldMatrix * vec4(position, 1))` before being folded into the
accumulator by component-wise min and max; and the concrete scene with one
untransformed node holding a single non-indexed triangle with positions
`(0,0,0), (1,0,0), (0,1,0)` yields `min = (0,0,0)` and `max = (1,1,0)`. -/
theorem C6_world_fold :
    (∀ (modelMatrix : Mat4) (acc : V3 ℚ × V3 ℚ) (p : V3 ℚ),
      boundsFold modelMatrix acc p =
        (acc.1.vmin ⟨(modelMatrix.mulVec ⟨p.x, p.y, p.z, 1⟩).x,
            (modelMatrix.mulVec ⟨p.x, p.y, p.z, 1⟩).y,
            (modelMatrix.mulVec ⟨p.x, p.y, p.z, 1⟩).z⟩,
         acc.2.vmax ⟨(modelMatrix.mulVec ⟨p.x, p.y, p.z, 1⟩).x,
            (modelMatrix.mulVec ⟨p.x, p.y, p.z, 1⟩).y,
            (modelMatrix.mulVec ⟨p.x, p.y, p.z, 1⟩).z⟩)) ∧
    computeSceneBounds triModel = (⟨0, 0, 0⟩, ⟨1, 1, 0⟩) := by
  constructor
  · intro modelMatrix acc p
    rfl
  · have e1 : computeSceneBounds triModel =
        updateBounds triModel 1 0 idMat4 initBounds := by
      simp [computeSceneBounds, triModel]
    have e2 : updateBounds triModel 1 0 idMat4 initBounds =
        processMesh triModel idMat4
          { primitives := [{ attributes := [(positionKey, 0)], indices := -1 }] }
          initBounds := by
      rw [show (1 : ℕ) = 0 + 1 from rfl, updateBounds]
      simp [triModel, getLocalToWorldMatrix, nodeT, nodeQuat, mat4cast_one,
        Mat4.mul_idMat4]
    have e3 : processMesh triModel idMat4
        { primitives := [{ attributes := [(positionKey, 0)], indices := -1 }] }
        initBounds =
        (List.range 3).foldl
          (fun a i => boundsFold idMat4 a (readVec3 triPositions (0 + 12 * i)))
          initBounds := by
      simp [processMesh, processPrimitive, triModel, List.lookup]
    have h0 : readVec3 triPositions 0 = ⟨0, 0, 0⟩ := by
      norm_num [readVec3, readF32, readU32, readU8, triPositions, decodeF32]
    have h1 : readVec3 triPositions 12 = ⟨1, 0, 0⟩ := by
      norm_num [readVec3, readF32, readU32, readU8, triPositions, decodeF32]
    have h2 : readVec3 triPositions 24 = ⟨0, 1, 0⟩ := by
      norm_num [readVec3, readF32, readU32, readU8, triPositions, decodeF32]
    rw [e1, e2, e3]
    simp only [List.range_succ, List.range_zero, List.foldl_nil, List.foldl_cons,
      List.foldl_append, List.nil_append, List.cons_append]
    norm_num [h0, h1, h2, boundsFold, Mat4.mulVec, idMat4, V3.vmin, V3.vmax,
      initBounds, floatMax, floatLowest]

lemma processPrimitive_skip (model : Model) (mm : Mat4) (prim : Primitive)
    (acc : V3 ℚ × V3 ℚ) (posAccIdx : ℕ)
    (hlook : prim.attributes.lookup positionKey = some posAccIdx)
    (htype : (model.accessors.getD posAccIdx default).type = 3)
    (hidx : 0 ≤ prim.indices)
    (h1 : (model.accessors.getD prim.indices.toNat default).componentType ≠
      componentTypeUnsignedByte)
    (h2 : (model.accessors.getD prim.indices.toNat default).componentType ≠
      componentTypeUnsignedShort)
    (h3 : (model.accessors.getD prim.indices.toNat default).componentType ≠
      componentTypeUnsignedInt) :
    processPrimitive model mm prim acc = acc := by
  have hns : indexStride (model.accessors.getD prim.indices.toNat default).componentType
      (model.bufferViews.getD
        (model.accessors.getD prim.indices.toNat default).bufferView
        default).byteStride = none := by
    rw [indexStride, if_neg h1, if_neg h2, if_neg h3]
  simp only [processPrimitive, hlook]
  rw [if_neg (fun hc => hc htype), if_pos hidx, hns]

lemma processPrimitive_u8 (model : Model) (mm : Mat4) (prim : Primitive)
    (acc : V3 ℚ × V3 ℚ) (posAccIdx : ℕ) (posAcc idxAcc : Accessor)
    (posView idxView : BufferView) (posBuf idxBuf : Buffer)
    (hlook : prim.attributes.lookup positionKey = some posAccIdx)
    (hpa : model.accessors.getD posAccIdx default = posAcc)
    (htype : posAcc.type = 3)
    (hidx : 0 ≤ prim.indices)
    (hia : model.accessors.getD prim.indices.toNat default = idxAcc)
    (hpv : model.bufferViews.getD posAcc.bufferView default = posView)
    (hiv : model.bufferViews.getD idxAcc.bufferView default = idxView)
    (hpb : model.buffers.getD posView.buffer default = posBuf)
    (hib : model.buffers.getD idxView.buffer default = idxBuf)
    (hct : idxAcc.componentType = componentTypeUnsignedByte) :
    processPrimitive model mm prim acc =
      (List.range idxAcc.count).foldl
        (fun a i => boundsFold mm a
          (readVec3 posBuf.data
            (posAcc.byteOffset + posView.byteOffset +
              (if posView.byteStride = 0 then 12 else posView.byteStride) *
                readU8 idxBuf.data
                  (idxAcc.byteOffset + idxView.byteOffset +
                    (if idxView.byteStride = 0 then 1 else idxView.byteStride) * i))))
        acc := by
  subst hpa hia hpv hiv hpb hib
  have hstr : indexStride
      (model.accessors.getD prim.indices.toNat default).componentType
      (model.bufferViews.getD
        (model.accessors.getD prim.indices.toNat default).bufferView
        default).byteStride =
      some (if (model.bufferViews.getD
          (model.accessors.getD prim.indices.toNat default).bufferView
          default).byteStride = 0 then 1
        else (model.bufferViews.getD
          (model.accessors.getD prim.indices.toNat default).bufferView
          default).byteStride) := by
    rw [indexStride, if_pos hct]
  simp only [processPrimitive, hlook]
  rw [if_neg (fun hc => hc htype), if_pos hidx, hstr]
  simp only [readIndex, hct, componentTypeUnsignedByte]
  norm_num

lemma processPrimitive_u16 (model : Model) (mm : Mat4) (prim : Primitive)
    (acc : V3 ℚ × V3 ℚ) (posAccIdx : ℕ) (posAcc idxAcc : Accessor)
    (posView idxView : BufferView) (posBuf idxBuf : Buffer)
    (hlook : prim.attributes.lookup positionKey = some posAccIdx)
    (hpa : model.accessors.getD posAccIdx default = posAcc)
    (htype : posAcc.type = 3)
    (hidx : 0 ≤ prim.indices)
    (hia : model.accessors.getD prim.indices.toNat default = idxAcc)
    (hpv : model.bufferViews.getD posAcc.bufferView default = posView)
    (hiv : model.bufferViews.getD idxAcc.bufferView default = idxView)
    (hpb : model.buffers.getD posView.buffer default = posBuf)
    (hib : model.buffers.getD idxView.buffer default = idxBuf)
    (hct : idxAcc.componentType = componentTypeUnsignedShort) :
    processPrimitive model mm prim acc =
      (List.range idxAcc.count).foldl
        (fun a i => boundsFold mm a
          (readVec3 posBuf.data
            (posAcc.byteOffset + posView.byteOffset +
              (if posView.byteStride = 0 then 12 else posView.byteStride) *
                readU16 idxBuf.data
                  (idxAcc.byteOffset + idxView.byteOffset +
                    (if idxView.byteStride = 0 then 2 else idxView.byteStride) * i))))
        acc := by
  subst hpa hia hpv hiv hpb hib
  have hstr : indexStride
      (model.accessors.getD prim.indices.toNat default).componentType
      (model.bufferViews.getD
        (model.accessors.getD prim.indices.toNat default).bufferView
        default).byteStride =
      some (if (model.bufferViews.getD
          (model.accessors.getD prim.indices.toNat default).bufferView
          default).byteStride = 0 then 2
        else (model.bufferViews.getD
          (model.accessors.getD prim.indices.toNat default).bufferView
          default).byteStride) := by
    rw [indexStride, if_neg (by rw [hct]; norm_num [componentTypeUnsignedByte,
      componentTypeUnsignedShort]), if_pos hct]
  simp only [processPrimitive, hlook]
  rw [if_neg (fun hc => hc htype), if_pos hidx, hstr]
  simp only [readIndex, hct, componentTypeUnsignedByte, componentTypeUnsignedShort]
  norm_num

lemma processPrimitive_u32 (model : Model) (mm : Mat4) (prim : Primitive)
    (acc : V3 ℚ × V3 ℚ) (posAccIdx : ℕ) (posAcc idxAcc : Accessor)
    (posView idxView : BufferView) (posBuf idxBuf : Buffer)
    (hlook : prim.attributes.lookup positionKey = some posAccIdx)
    (hpa : model.accessors.getD posAccIdx default = posAcc)
    (htype : posAcc.type = 3)
    (hidx : 0 ≤ prim.indices)
    (hia : model.accessors.getD prim.indices.toNat default = idxAcc)
    (hpv : model.bufferViews.getD posAcc.bufferView default = posView)
    (hiv : model.bufferViews.getD idxAcc.bufferView default = idxView)
    (hpb : model.buffers.getD posView.buffer default = posBuf)
    (hib : model.buffers.getD idxView.buffer default = idxBuf)
    (hct : idxAcc.componentType = componentTypeUnsignedInt) :
    processPrimitive model mm prim acc =
      (List.range idxAcc.count).foldl
        (fun a i => boundsFold mm a
          (readVec3 posBuf.data
            (posAcc.byteOffset + posView.byteOffset +
              (if posView.byteStride = 0 then 12 else posView.byteStride) *
                readU32 idxBuf.data
                  (idxAcc.byteOffset + idxView.byteOffset +
                    (if idxView.byteStride = 0 then 4 else idxView.byteStride) * i))))
        acc := by
  subst hpa hia hpv hiv hpb hib
  have hstr : indexStride
      (model.accessors.getD prim.indices.toNat default).componentType
      (model.bufferViews.getD
        (model.accessors.getD prim.indices.toNat default).bufferView
        default).byteStride =
      some (if (model.bufferViews.getD
          (model.accessors.getD prim.indices.toNat default).bufferView
          default).byteStride = 0 then 4
        else (model.bufferViews.getD
          (model.accessors.getD prim.indices.toNat default).bufferView
          default).byteStride) := by
    have hne1 : (model.accessors.getD prim.indices.toNat default).componentType ≠
        componentTypeUnsignedByte := by
      rw [hct]
      norm_num [componentTypeUnsignedByte, componentTypeUnsignedInt]
    have hne2 : (model.accessors.getD prim.indices.toNat default).componentType ≠
        componentTypeUnsignedShort := by
      rw [hct]
      norm_num [componentTypeUnsignedShort, componentTypeUnsignedInt]
    rw [indexStride, if_neg hne1, if_neg hne2, if_pos hct]
  simp only [processPrimitive, hlook]
  rw [if_neg (fun hc => hc htype), if_pos hidx, hstr]
  simp only [readIndex, hct, componentTypeUnsignedByte, componentTypeUnsignedShort,
    componentTypeUnsignedInt]
  norm_num

/-- C5: indices of an indexed primitive are decoded per their declared
component type — unsigned 8/16/32-bit, with byte stride defaulting to the
natural size 1/2/4 when the buffer view specifies stride 0 — and the
decoded index locates the position read; any other index component type
makes the traversal skip the primitive and continue, never aborting. -/
theorem C5_index_decoding :
    (∀ (model : Model) (mm : Mat4) (prim : Primitive) (acc : V3 ℚ × V3 ℚ)
        (posAccIdx : ℕ),
      prim.attributes.lookup positionKey = some posAccIdx →
      (model.accessors.getD posAccIdx default).type = 3 →
      0 ≤ prim.indices →
      (model.accessors.getD prim.indices.toNat default).componentType ≠
        componentTypeUnsignedByte →
      (model.accessors.getD prim.indices.toNat default).componentType ≠
        componentTypeUnsignedShort →
      (model.accessors.getD prim.indices.toNat default).componentType ≠
        componentTypeUnsignedInt →
      processPrimitive model mm prim acc = acc) ∧
    (∀ (model : Model) (mm : Mat4) (prim : Primitive) (acc : V3 ℚ × V3 ℚ)
        (posAccIdx : ℕ) (posAcc idxAcc : Accessor) (posView idxView : BufferView)
        (posBuf idxBuf : Buffer),
      prim.attributes.lookup positionKey = some posAccIdx →
      model.accessors.getD posAccIdx default = posAcc →
      posAcc.type = 3 →
      0 ≤ prim.indices →
      model.accessors.getD prim.indices.toNat default = idxAcc →
      model.bufferViews.getD posAcc.bufferView default = posView →
      model.bufferViews.getD idxAcc.bufferView default = idxView →
      model.buffers.getD posView.buffer default = posBuf →
      model.buffers.getD idxView.buffer default = idxBuf →
      idxAcc.componentType = componentTypeUnsignedByte →
      processPrimitive model mm prim acc =
        (List.range idxAcc.count).foldl
          (fun a i => boundsFold mm a
            (readVec3 posBuf.data
              (posAcc.byteOffset + posView.byteOffset +
                (if posView.byteStride = 0 then 12 else posView.byteStride) *
                  readU8 idxBuf.data
                    (idxAcc.byteOffset + idxView.byteOffset +
                      (if idxView.byteStride = 0 then 1 else idxView.byteStride) * i))))
          acc) ∧
    (∀ (model : Model) (mm : Mat4) (prim : Primitive) (acc : V3 ℚ × V3 ℚ)
        (posAccIdx : ℕ) (posAcc idxAcc : Accessor) (posView idxView : BufferView)
        (posBuf idxBuf : Buffer),
      prim.attributes.lookup positionKey = some posAccIdx →
      model.accessors.getD posAccIdx default = posAcc →
      posAcc.type = 3 →
      0 ≤ prim.indices →
      model.accessors.getD prim.indices.toNat default = idxAcc →
      model.bufferViews.getD posAcc.bufferView default = posView →
      model.bufferViews.getD idxAcc.bufferView default = idxView →
      model.buffers.getD posView.buffer default = posBuf →
      model.buffers.getD idxView.buffer default = idxBuf →
      idxAcc.componentType = componentTypeUnsignedShort →
      processPrimitive model mm prim acc =
        (List.range idxAcc.count).foldl
          (fun a i => boundsFold mm a
            (readVec3 posBuf.data
              (posAcc.byteOffset + posView.byteOffset +
                (if posView.byteStride = 0 then 12 else posView.byteStride) *
                  readU16 idxBuf.data
                    (idxAcc.byteOffset + idxView.byteOffset +
                      (if idxView.byteStride = 0 then 2 else idxView.byteStride) * i))))
          acc) ∧
    (∀ (model : Model) (mm : Mat4) (prim : Primitive) (acc : V3 ℚ × V3 ℚ)
        (posAccIdx : ℕ) (posAcc idxAcc : Accessor) (posView idxView : BufferView)
        (posBuf idxBuf : Buffer),
      prim.attributes.lookup positionKey = some posAccIdx →
      model.accessors.getD posAccIdx default = posAcc →
      posAcc.type = 3 →
      0 ≤ prim.indices →
      model.accessors.getD prim.indices.toNat default = idxAcc →
      model.bufferViews.getD posAcc.bufferView default = posView →
      model.bufferViews.getD idxAcc.bufferView default = idxView →
      model.buffers.getD posView.buffer default = posBuf →
      model.buffers.getD idxView.buffer default = idxBuf →
      idxAcc.componentType = componentTypeUnsignedInt →
      processPrimitive model mm prim acc =
        (List.range idxAcc.count).foldl
          (fun a i => boundsFold mm a
            (readVec3 posBuf.data
              (posAcc.byteOffset + posView.byteOffset +
                (if posView.byteStride = 0 then 12 else posView.byteStride) *
                  readU32 idxBuf.data
                    (idxAcc.byteOffset + idxView.byteOffset +
                      (if idxView.byteStride = 0 then 4 else idxView.byteStride) * i))))
          acc) ∧
    (∀ (model : Model) (mm : Mat4) (pre post : List Primitive) (bad : Primitive)
        (acc : V3 ℚ × V3 ℚ) (posAccIdx : ℕ),
      bad.attributes.lookup positionKey = some posAccIdx →
      (model.accessors.getD posAccIdx default).type = 3 →
      0 ≤ bad.indices →
      (model.accessors.getD bad.indices.toNat default).componentType ≠
        componentTypeUnsignedByte →
      (model.accessors.getD bad.indices.toNat default).componentType ≠
        componentTypeUnsignedShort →
      (model.accessors.getD bad.indices.toNat default).componentType ≠
        componentTypeUnsignedInt →
      processMesh model mm ⟨pre ++ bad :: post⟩ acc =
        processMesh model mm ⟨post⟩ (processMesh model mm ⟨pre⟩ acc)) := by
  refine ⟨processPrimitive_skip, processPrimitive_u8, processPrimitive_u16,
    processPrimitive_u32, ?_⟩
  intro model mm pre post bad acc posAccIdx hlook htype hidx h1 h2 h3
  simp only [processMesh, List.foldl_append, List.foldl_cons]
  rw [processPrimitive_skip model mm bad _ posAccIdx hlook htype hidx h1 h2 h3]

/-- Witness for C5 (skip clause) on a document whose indexed primitive
declares the unsupported index component type 5126 (`FLOAT`). -/
theorem C5_index_decoding_witness :
    processPrimitive badIndexModel idMat4 badPrim initBounds = initBounds :=
  C5_index_decoding.1 badIndexModel idMat4 badPrim initBounds 0 rfl rfl
    (by decide) (by decide) (by decide) (by decide)

lemma V3.dot_comm (a b : V3 ℝ) : a.dot b = b.dot a := by
  rcases a with ⟨ax, ay, az⟩
  rcases b with ⟨bx, by', bz⟩
  simp only [V3.dot]
  ring

lemma V3.dot_cross_left (a b : V3 ℝ) : (a.cross b).dot a = 0 := by
  rcases a with ⟨ax, ay, az⟩
  rcases b with ⟨bx, by', bz⟩
  simp only [V3.dot, V3.cross]
  ring

lemma V3.dot_cross_right (a b : V3 ℝ) : (a.cross b).dot b = 0 := by
  rcases a with ⟨ax, ay, az⟩
  rcases b with ⟨bx, by', bz⟩
  simp only [V3.dot, V3.cross]
  ring

lemma V3.lagrange (a b : V3 ℝ) :
    (a.cross b).dot (a.cross b) = a.dot a * b.dot b - (a.dot b) ^ 2 := by
  rcases a with ⟨ax, ay, az⟩
  rcases b with ⟨bx, by', bz⟩
  simp only [V3.dot, V3.cross]
  ring

lemma V3.smul_dot (r : ℝ) (a b : V3 ℝ) : (r • a).dot b = r * a.dot b := by
  rcases a with ⟨ax, ay, az⟩
  rcases b with ⟨bx, by', bz⟩
  simp only [V3.dot, V3.smul_x, V3.smul_y, V3.smul_z]
  ring

lemma V3.dot_smul (r : ℝ) (a b : V3 ℝ) : a.dot (r • b) = r * a.dot b := by
  rcases a with ⟨ax, ay, az⟩
  rcases b with ⟨bx, by', bz⟩
  simp only [V3.dot, V3.smul_x, V3.smul_y, V3.smul_z]
  ring

lemma V3.cross_zero_right (a : V3 ℝ) : a.cross 0 = 0 := by
  rcases a with ⟨ax, ay, az⟩
  simp [V3.cross]

lemma V3.dot_self_nonneg (v : V3 ℝ) : 0 ≤ v.dot v := by
  rcases v with ⟨x, y, z⟩
  simp only [V3.dot]
  nlinarith [mul_self_nonneg x, mul_self_nonneg y, mul_self_nonneg z]

lemma V3.dot_self_pos {v : V3 ℝ} (h : v ≠ 0) : 0 < v.dot v := by
  rcases v with ⟨x, y, z⟩
  have hne : x ≠ 0 ∨ y ≠ 0 ∨ z ≠ 0 := by
    by_contra hc
    push_neg at hc
    exact h (by simp [hc.1, hc.2.1, hc.2.2])
  simp only [V3.dot]
  rcases hne with hx | hy | hz
  · nlinarith [mul_self_pos.mpr hx, mul_self_nonneg y, mul_self_nonneg z]
  · nlinarith [mul_self_pos.mpr hy, mul_self_nonneg x, mul_self_nonneg z]
  · nlinarith [mul_self_pos.mpr hz, mul_self_nonneg x, mul_self_nonneg y]

lemma V3.ne_zero_of_dot_self_pos {v : V3 ℝ} (h : 0 < v.dot v) : v ≠ 0 := by
  intro h0
  rw [h0, V3.zero_def] at h
  simp only [V3.dot] at h
  norm_num at h

lemma V3.norm_pos {v : V3 ℝ} (h : v ≠ 0) : 0 < v.norm :=
  Real.sqrt_pos.mpr (V3.dot_self_pos h)

lemma V3.norm_mul_self (v : V3 ℝ) : v.norm * v.norm = v.dot v :=
  Real.mul_self_sqrt (V3.dot_self_nonneg v)

lemma V3.normalize_dot_self {v : V3 ℝ} (h : v ≠ 0) :
    v.normalize.dot v.normalize = 1 := by
  have hd := V3.dot_self_pos h
  have hn := V3.norm_mul_self v
  have hnz : v.norm ≠ 0 := ne_of_gt (V3.norm_pos h)
  rw [V3.normalize, V3.smul_dot, V3.dot_smul]
  field_simp
  linarith [hn]

lemma V3.normalize_ne_zero {v : V3 ℝ} (h : v ≠ 0) : v.normalize ≠ 0 := by
  apply V3.ne_zero_of_dot_self_pos
  rw [V3.normalize_dot_self h]
  norm_num

lemma V3.smul_normalize {v : V3 ℝ} (h : v ≠ 0) : v.norm • v.normalize = v := by
  have hnz : v.norm ≠ 0 := ne_of_gt (V3.norm_pos h)
  rcases v with ⟨x, y, z⟩
  apply V3.ext' <;>
    simp only [V3.normalize, V3.smul_x, V3.smul_y, V3.smul_z] <;>
    field_simp

lemma rotAux_dot {c s : ℝ} {a : V3 ℝ} (v w : V3 ℝ) (ha : a.dot a = 1)
    (hcs : c ^ 2 + s ^ 2 = 1) :
    (rotAux c s a v).dot (rotAux c s a w) = v.dot w := by
  rcases a with ⟨ax, ay, az⟩
  rcases v with ⟨vx, vy, vz⟩
  rcases w with ⟨wx, wy, wz⟩
  simp only [V3.dot, rotAux] at ha ⊢
  linear_combination
    ((vx * wx + vy * wy + vz * wz) -
        (ax * vx + ay * vy + az * vz) * (ax * wx + ay * wy + az * wz)) * hcs +
      (s ^ 2 * (vx * wx + vy * wy + vz * wz) +
        (1 - c) ^ 2 * (ax * vx + ay * vy + az * vz) *
          (ax * wx + ay * wy + az * wz)) * ha

lemma rotAux_dot_axis {c s : ℝ} {a : V3 ℝ} (v : V3 ℝ) (ha : a.dot a = 1) :
    (rotAux c s a v).dot a = v.dot a := by
  rcases a with ⟨ax, ay, az⟩
  rcases v with ⟨vx, vy, vz⟩
  simp only [V3.dot, rotAux] at ha ⊢
  linear_combination ((1 - c) * (ax * vx + ay * vy + az * vz)) * ha

lemma rotate3_dot {axis : V3 ℝ} (h : axis ≠ 0) (radians : ℝ) (v w : V3 ℝ) :
    (rotate3 radians axis v).dot (rotate3 radians axis w) = v.dot w :=
  rotAux_dot v w (V3.normalize_dot_self h) (Real.cos_sq_add_sin_sq radians)

lemma rotate3_dot_axis {axis : V3 ℝ} (h : axis ≠ 0) (radians : ℝ) (v : V3 ℝ) :
    (rotate3 radians axis v).dot axis = v.dot axis := by
  have h1 : (rotate3 radians axis v).dot axis.normalize = v.dot axis.normalize := by
    rw [rotate3]
    exact rotAux_dot_axis v (V3.normalize_dot_self h)
  calc (rotate3 radians axis v).dot axis
      = (rotate3 radians axis v).dot (axis.norm • axis.normalize) := by
        rw [V3.smul_normalize h]
    _ = axis.norm * (rotate3 radians axis v).dot axis.normalize :=
        V3.dot_smul _ _ _
    _ = axis.norm * v.dot axis.normalize := by rw [h1]
    _ = v.dot (axis.norm • axis.normalize) := (V3.dot_smul _ _ _).symm
    _ = v.dot axis := by rw [V3.smul_normalize h]

lemma V3.add_sub_add (c e t : V3 ℝ) : (c + t) - (e + t) = c - e := by
  rcases c with ⟨cx, cy, cz⟩
  rcases e with ⟨ex, ey, ez⟩
  rcases t with ⟨tx, ty, tz⟩
  apply V3.ext' <;> simp

lemma V3.add_sub_cancel_left (e b : V3 ℝ) : (e + b) - e = b := by
  rcases e with ⟨ex, ey, ez⟩
  rcases b with ⟨bx, by', bz⟩
  apply V3.ext' <;> simp

lemma norm_eq_one {v : V3 ℝ} (h : v.dot v = 1) : v.norm = 1 := by
  rw [V3.norm, h, Real.sqrt_one]

lemma caminv_translate (cam : Camera) (t : V3 ℝ) (h : CamInv cam) :
    CamInv ⟨cam.eye + t, cam.center + t, cam.up⟩ := by
  obtain ⟨h1, h2, h3⟩ := h
  refine ⟨?_, h2, ?_⟩
  · show cam.up.dot (cam.center + t - (cam.eye + t)) = 0
    rw [V3.add_sub_add]
    exact h1
  · show cam.center + t - (cam.eye + t) ≠ 0
    rw [V3.add_sub_add]
    exact h3

lemma caminv_front_up (e nf u2 : V3 ℝ) (horth : u2.dot nf = 0)
    (hunit : u2.dot u2 = 1) (hnf : nf ≠ 0) : CamInv ⟨e, e + nf, u2⟩ := by
  refine ⟨?_, hunit, ?_⟩
  · show u2.dot (e + nf - e) = 0
    rw [V3.add_sub_cancel_left]
    exact horth
  · show e + nf - e ≠ 0
    rw [V3.add_sub_cancel_left]
    exact hnf

lemma cross_up_front_ne {u f : V3 ℝ} (h1 : u.dot f = 0) (h2 : u.dot u = 1)
    (h3 : f ≠ 0) : u.cross f ≠ 0 := by
  apply V3.ne_zero_of_dot_self_pos
  rw [V3.lagrange, h1, h2]
  have := V3.dot_self_pos h3
  nlinarith

lemma truckLeft_inv {cam : Camera} (h : CamInv cam) (o : ℝ) :
    CamInv (cam.truckLeft o) := by
  unfold Camera.truckLeft
  exact caminv_translate cam _ h

lemma pedestalUp_inv {cam : Camera} (h : CamInv cam) (o : ℝ) :
    CamInv (cam.pedestalUp o) := by
  unfold Camera.pedestalUp
  exact caminv_translate cam _ h

lemma dollyIn_inv {cam : Camera} (h : CamInv cam) (o : ℝ) :
    CamInv (cam.dollyIn o) := by
  unfold Camera.dollyIn
  exact caminv_translate cam _ h

lemma moveLocal_inv {cam : Camera} (h : CamInv cam) (t p d : ℝ) :
    CamInv (cam.moveLocal t p d) := by
  unfold Camera.moveLocal
  exact caminv_translate cam _ h

lemma rollRight_inv {cam : Camera} (h : CamInv cam) (radians : ℝ) :
    CamInv (cam.rollRight radians) := by
  obtain ⟨h1, h2, h3⟩ := h
  unfold Camera.rollRight
  exact ⟨(rotate3_dot_axis h3 radians cam.up).trans h1,
    (rotate3_dot h3 radians cam.up cam.up).trans h2, h3⟩

lemma tiltDown_inv {cam : Camera} (h : CamInv cam) (radians : ℝ) :
    CamInv (cam.tiltDown radians) := by
  obtain ⟨h1, h2, h3⟩ := h
  have hl : cam.up.cross (cam.center - cam.eye) ≠ 0 := cross_up_front_ne h1 h2 h3
  unfold Camera.tiltDown
  apply caminv_front_up
  · exact (rotate3_dot hl radians cam.up (cam.center - cam.eye)).trans h1
  · exact (rotate3_dot hl radians cam.up cam.up).trans h2
  · apply V3.ne_zero_of_dot_self_pos
    rw [rotate3_dot hl radians (cam.center - cam.eye) (cam.center - cam.eye)]
    exact V3.dot_self_pos h3

lemma panLeft_inv {cam : Camera} (h : CamInv cam) (radians : ℝ) :
    CamInv (cam.panLeft radians) := by
  obtain ⟨h1, h2, h3⟩ := h
  have hup : cam.up ≠ 0 := by
    apply V3.ne_zero_of_dot_self_pos
    rw [h2]
    norm_num
  unfold Camera.panLeft
  apply caminv_front_up
  · rw [V3.dot_comm, rotate3_dot_axis hup radians (cam.center - cam.eye),
      V3.dot_comm]
    exact h1
  · exact h2
  · apply V3.ne_zero_of_dot_self_pos
    rw [rotate3_dot hup radians (cam.center - cam.eye) (cam.center - cam.eye)]
    exact V3.dot_self_pos h3

lemma rotateLocal_inv {cam : Camera} (h : CamInv cam) (roll tilt pan : ℝ) :
    CamInv (cam.rotateLocal roll tilt pan) := by
  obtain ⟨h1, h2, h3⟩ := h
  unfold Camera.rotateLocal
  have hu1f : (rotate3 roll (cam.center - cam.eye) cam.up).dot
      (cam.center - cam.eye) = 0 :=
    (rotate3_dot_axis h3 roll cam.up).trans h1
  have hu1 : (rotate3 roll (cam.center - cam.eye) cam.up).dot
      (rotate3 roll (cam.center - cam.eye) cam.up) = 1 :=
    (rotate3_dot h3 roll cam.up cam.up).trans h2
  have hl1 : (rotate3 roll (cam.center - cam.eye) cam.up).cross
      (cam.center - cam.eye) ≠ 0 := cross_up_front_ne hu1f hu1 h3
  have hnf : rotate3 tilt
      ((rotate3 roll (cam.center - cam.eye) cam.up).cross (cam.center - cam.eye))
      (cam.center - cam.eye) ≠ 0 := by
    apply V3.ne_zero_of_dot_self_pos
    rw [rotate3_dot hl1]
    exact V3.dot_self_pos h3
  have hu2 : (rotate3 tilt
      ((rotate3 roll (cam.center - cam.eye) cam.up).cross (cam.center - cam.eye))
      (rotate3 roll (cam.center - cam.eye) cam.up)).dot
      (rotate3 tilt
        ((rotate3 roll (cam.center - cam.eye) cam.up).cross (cam.center - cam.eye))
        (rotate3 roll (cam.center - cam.eye) cam.up)) = 1 :=
    (rotate3_dot hl1 tilt _ _).trans hu1
  have hu2ne : rotate3 tilt
      ((rotate3 roll (cam.center - cam.eye) cam.up).cross (cam.center - cam.eye))
      (rotate3 roll (cam.center - cam.eye) cam.up) ≠ 0 := by
    apply V3.ne_zero_of_dot_self_pos
    rw [hu2]
    norm_num
  have hu2nf : (rotate3 tilt
      ((rotate3 roll (cam.center - cam.eye) cam.up).cross (cam.center - cam.eye))
      (rotate3 roll (cam.center - cam.eye) cam.up)).dot
      (rotate3 tilt
        ((rotate3 roll (cam.center - cam.eye) cam.up).cross (cam.center - cam.eye))
        (cam.center - cam.eye)) = 0 :=
    (rotate3_dot hl1 tilt _ _).trans hu1f
  apply caminv_front_up
  · rw [V3.dot_comm, rotate3_dot_axis hu2ne pan, V3.dot_comm]
    exact hu2nf
  · exact hu2
  · apply V3.ne_zero_of_dot_self_pos
    rw [rotate3_dot hu2ne pan]
    exact V3.dot_self_pos hnf

lemma rotateWorld_inv {cam : Camera} (h : CamInv cam) (radians : ℝ)
    {axis : V3 ℝ} (haxis : axis ≠ 0) : CamInv (cam.rotateWorld radians axis) := by
  obtain ⟨h1, h2, h3⟩ := h
  unfold Camera.rotateWorld
  apply caminv_front_up
  · exact (rotate3_dot haxis radians cam.up (cam.center - cam.eye)).trans h1
  · exact (rotate3_dot haxis radians cam.up cam.up).trans h2
  · apply V3.ne_zero_of_dot_self_pos
    rw [rotate3_dot haxis radians (cam.center - cam.eye) (cam.center - cam.eye)]
    exact V3.dot_self_pos h3

lemma mk3_inv {e c u : V3 ℝ} (h : u.cross (c - e) ≠ 0) :
    CamInv (Camera.mk3 e c u) := by
  have hf : c - e ≠ 0 := by
    intro h0
    apply h
    rw [h0, V3.cross_zero_right]
  have hw : (c - e).cross (u.cross (c - e)) ≠ 0 := by
    apply V3.ne_zero_of_dot_self_pos
    rw [V3.lagrange]
    have hfz : (c - e).dot (u.cross (c - e)) = 0 := by
      rw [V3.dot_comm]
      exact V3.dot_cross_right u (c - e)
    rw [hfz]
    have hp1 := V3.dot_self_pos hf
    have hp2 := V3.dot_self_pos h
    nlinarith
  unfold Camera.mk3
  refine ⟨?_, V3.normalize_dot_self hw, hf⟩
  show (((c - e).cross (u.cross (c - e))).normalize).dot (c - e) = 0
  rw [V3.normalize, V3.smul_dot, V3.dot_cross_left]
  ring

/-- C3: the 3-argument constructor replaces `up` with
`normalize(cross(front, cross(up, front)))` so that `up` is orthogonal to
`front` and of unit length whenever `cross(up, center - eye)` is nonzero
(`CamInv` also records the nondegeneracy `front ≠ 0` that this entails),
and every in-place motion operation preserves this orthogonality invariant
in exact real arithmetic (`rotateWorld` for a nonzero world axis). -/
theorem C3_camera_invariant :
    (∀ e c u : V3 ℝ, u.cross (c - e) ≠ 0 →
      CamInv (Camera.mk3 e c u) ∧ (Camera.mk3 e c u).up.norm = 1) ∧
    (∀ (cam : Camera) (o : ℝ), CamInv cam → CamInv (cam.truckLeft o)) ∧
    (∀ (cam : Camera) (o : ℝ), CamInv cam → CamInv (cam.pedestalUp o)) ∧
    (∀ (cam : Camera) (o : ℝ), CamInv cam → CamInv (cam.dollyIn o)) ∧
    (∀ (cam : Camera) (t p d : ℝ), CamInv cam → CamInv (cam.moveLocal t p d)) ∧
    (∀ (cam : Camera) (radians : ℝ), CamInv cam → CamInv (cam.rollRight radians)) ∧
    (∀ (cam : Camera) (radians : ℝ), CamInv cam → CamInv (cam.tiltDown radians)) ∧
    (∀ (cam : Camera) (radians : ℝ), CamInv cam → CamInv (cam.panLeft radians)) ∧
    (∀ (cam : Camera) (roll tilt pan : ℝ), CamInv cam →
      CamInv (cam.rotateLocal roll tilt pan)) ∧
    (∀ (cam : Camera) (radians : ℝ) (axis : V3 ℝ), axis ≠ 0 → CamInv cam →
      CamInv (cam.rotateWorld radians axis)) := by
  refine ⟨fun e c u h => ⟨mk3_inv h, norm_eq_one (mk3_inv h).2.1⟩,
    fun cam o h => truckLeft_inv h o,
    fun cam o h => pedestalUp_inv h o,
    fun cam o h => dollyIn_inv h o,
    fun cam t p d h => moveLocal_inv h t p d,
    fun cam radians h => rollRight_inv h radians,
    fun cam radians h => tiltDown_inv h radians,
    fun cam radians h => panLeft_inv h radians,
    fun cam roll tilt pan h => rotateLocal_inv h roll tilt pan,
    fun cam radians axis haxis h => rotateWorld_inv h radians haxis⟩

/-- Witness for C3: constructor invariant at the concrete triple
`eye = 0`, `center = (0,0,-1)`, `up = (0,1,0)`, and preservation under a
concrete `truckLeft` step. -/
theorem C3_camera_invariant_witness :
    CamInv (Camera.mk3 ⟨0, 0, 0⟩ ⟨0, 0, -1⟩ ⟨0, 1, 0⟩) ∧
    CamInv (exCamera.truckLeft 1) := by
  have hcross : (⟨0, 1, 0⟩ : V3 ℝ).cross ((⟨0, 0, -1⟩ : V3 ℝ) - ⟨0, 0, 0⟩) ≠ 0 := by
    simp only [V3.cross, V3.sub_x, V3.sub_y, V3.sub_z, V3.zero_def, ne_eq,
      V3.mk.injEq]
    norm_num
  have hinv : CamInv exCamera := by
    refine ⟨?_, ?_, ?_⟩
    · show (⟨0, 1, 0⟩ : V3 ℝ).dot ((⟨0, 0, -1⟩ : V3 ℝ) - ⟨0, 0, 0⟩) = 0
      simp [V3.dot]
    · show (⟨0, 1, 0⟩ : V3 ℝ).dot ⟨0, 1, 0⟩ = 1
      simp [V3.dot]
    · show (⟨0, 0, -1⟩ : V3 ℝ) - ⟨0, 0, 0⟩ ≠ 0
      apply V3.ne_zero_of_dot_self_pos
      simp only [V3.dot, V3.sub_x, V3.sub_y, V3.sub_z]
      norm_num
  exact ⟨(C3_camera_invariant.1 ⟨0, 0, 0⟩ ⟨0, 0, -1⟩ ⟨0, 1, 0⟩ hcross).1,
    C3_camera_invariant.2.1 exCamera 1 hinv⟩

/-- C7: when every accumulated motion quantity (truck, pedestal, dolly,
roll, pan, tilt) is exactly zero, `FirstPersonCameraController::update`
returns `false` and leaves the held camera exactly unchanged; otherwise it
applies `moveLocal`, then `rotateLocal(roll, tilt, 0)`, then
`rotateWorld(pan, worldUpAxis)`, in that order, and returns `true`. -/
theorem C7_fp_update (ctl : FirstPersonCameraController) (inp : FPInput)
    (elapsedTime : ℝ) :
    ((fpTruckLeft ctl inp elapsedTime = 0 ∧ fpPedestalUp ctl inp elapsedTime = 0 ∧
      fpDollyIn ctl inp elapsedTime = 0 ∧ fpRollRightAngle inp = 0 ∧
      fpPanLeftAngle ctl inp = 0 ∧ fpTiltDownAngle ctl inp = 0) →
      (ctl.update inp elapsedTime).1 = false ∧
      (ctl.update inp elapsedTime).2.camera = ctl.camera) ∧
    ((fpTruckLeft ctl inp elapsedTime ≠ 0 ∨ fpPedestalUp ctl inp elapsedTime ≠ 0 ∨
      fpDollyIn ctl inp elapsedTime ≠ 0 ∨ fpPanLeftAngle ctl inp ≠ 0 ∨
      fpTiltDownAngle ctl inp ≠ 0 ∨ fpRollRightAngle inp ≠ 0) →
      (ctl.update inp elapsedTime).1 = true ∧
      (ctl.update inp elapsedTime).2.camera =
        ((ctl.camera.moveLocal (fpTruckLeft ctl inp elapsedTime)
            (fpPedestalUp ctl inp elapsedTime)
            (fpDollyIn ctl inp elapsedTime)).rotateLocal (fpRollRightAngle inp)
            (fpTiltDownAngle ctl inp) 0).rotateWorld (fpPanLeftAngle ctl inp)
          ctl.worldUpAxis) := by
  constructor
  · rintro ⟨e1, e2, e3, e4, e5, e6⟩
    have hnc : ¬(fpTruckLeft ctl inp elapsedTime ≠ 0 ∨
        fpPedestalUp ctl inp elapsedTime ≠ 0 ∨ fpDollyIn ctl inp elapsedTime ≠ 0 ∨
        fpPanLeftAngle ctl inp ≠ 0 ∨ fpTiltDownAngle ctl inp ≠ 0 ∨
        fpRollRightAngle inp ≠ 0) := by
      push_neg
      exact ⟨e1, e2, e3, e5, e6, e4⟩
    have hres : ctl.update inp elapsedTime =
        (false,
          { ctl with
            leftButtonPressed := fpPressedAfter ctl inp
            lastCursorPosition := fpLastCursorAfter ctl inp }) := by
      rw [FirstPersonCameraController.update, if_neg hnc]
    rw [hres]
    exact ⟨rfl, rfl⟩
  · intro hC
    have hres : ctl.update inp elapsedTime =
        (true,
          { ctl with
            leftButtonPressed := fpPressedAfter ctl inp
            lastCursorPosition := fpLastCursorAfter ctl inp
            camera :=
              ((ctl.camera.moveLocal (fpTruckLeft ctl inp elapsedTime)
                  (fpPedestalUp ctl inp elapsedTime)
                  (fpDollyIn ctl inp elapsedTime)).rotateLocal (fpRollRightAngle inp)
                  (fpTiltDownAngle ctl inp) 0).rotateWorld (fpPanLeftAngle ctl inp)
                ctl.worldUpAxis }) := by
      rw [FirstPersonCameraController.update, if_pos hC]
    rw [hres]
    exact ⟨rfl, rfl⟩

/-- Witness for C7 at the idle controller: all keys up, no drag in
progress, zero elapsed time; `update` returns `false` and the camera is
unchanged. -/
theorem C7_fp_update_witness :
    (exIdleFP.update exIdleFPInput 0).1 = false ∧
    (exIdleFP.update exIdleFPInput 0).2.camera = exIdleFP.camera := by
  have hz : fpTruckLeft exIdleFP exIdleFPInput 0 = 0 ∧
      fpPedestalUp exIdleFP exIdleFPInput 0 = 0 ∧
      fpDollyIn exIdleFP exIdleFPInput 0 = 0 ∧
      fpRollRightAngle exIdleFPInput = 0 ∧
      fpPanLeftAngle exIdleFP exIdleFPInput = 0 ∧
      fpTiltDownAngle exIdleFP exIdleFPInput = 0 := by
    refine ⟨?_, ?_, ?_, ?_, ?_, ?_⟩ <;>
      simp [fpTruckLeft, fpPedestalUp, fpDollyIn, fpRollRightAngle,
        fpPanLeftAngle, fpTiltDownAngle, fpCursorDelta, fpPressedAfter,
        fpBaseline, exIdleFP, exIdleFPInput]
  exact (C7_fp_update exIdleFP exIdleFPInput 0).1 hz

lemma V3.sub_ne_zero_of_ne {a b : V3 ℝ} (h : a ≠ b) : a - b ≠ 0 := by
  intro h0
  apply h
  have hx : a.x - b.x = 0 := congrArg V3.x h0
  have hy : a.y - b.y = 0 := congrArg V3.y h0
  have hz : a.z - b.z = 0 := congrArg V3.z h0
  apply V3.ext' <;> linarith

lemma V3.smul_smul' (r s : ℝ) (v : V3 ℝ) : r • (s • v) = (r * s) • v := by
  rcases v with ⟨x, y, z⟩
  apply V3.ext' <;> simp <;> ring

lemma V3.smul_ne_zero' {r : ℝ} {v : V3 ℝ} (hr : r ≠ 0) (hv : v ≠ 0) :
    r • v ≠ 0 := by
  apply V3.ne_zero_of_dot_self_pos
  rw [V3.smul_dot, V3.dot_smul]
  have h1 := V3.dot_self_pos hv
  have h2 : 0 < r * r := mul_self_pos.mpr hr
  nlinarith

lemma V3.zoom_algebra (e c : V3 ℝ) (r : ℝ) :
    (e + r • (c - e)) - c = (r - 1) • (c - e) := by
  rcases e with ⟨ex, ey, ez⟩
  rcases c with ⟨cx, cy, cz⟩
  apply V3.ext' <;> simp <;> ring

/-- C9: trackball update applies at most one mode per tick with priority
Pan (Shift) over Zoom (Ctrl) over Orbit — when both Shift and Ctrl are held
the result is the same as with Ctrl released — and returns `false` without
mutating the camera whenever the selected mode's relevant cursor deltas are
exactly zero. -/
theorem C9_trackball_priority :
    (∀ (ctl : TrackballCameraController) (inp : TBInput), inp.shift = true →
      ctl.update inp = ctl.update { inp with ctrl := false }) ∧
    (∀ (ctl : TrackballCameraController) (inp : TBInput), inp.shift = true →
      0.01 * (tbCursorDelta ctl inp).1 = 0 → 0.01 * (tbCursorDelta ctl inp).2 = 0 →
      (ctl.update inp).1 = false ∧ (ctl.update inp).2.camera = ctl.camera) ∧
    (∀ (ctl : TrackballCameraController) (inp : TBInput), inp.shift = false →
      inp.ctrl = true → 0.01 * (tbCursorDelta ctl inp).1 = 0 →
      (ctl.update inp).1 = false ∧ (ctl.update inp).2.camera = ctl.camera) ∧
    (∀ (ctl : TrackballCameraController) (inp : TBInput), inp.shift = false →
      inp.ctrl = false → 0.01 * (tbCursorDelta ctl inp).2 = 0 →
      -0.01 * (tbCursorDelta ctl inp).1 = 0 →
      (ctl.update inp).1 = false ∧ (ctl.update inp).2.camera = ctl.camera) := by
  refine ⟨?_, ?_, ?_, ?_⟩
  · intro ctl inp hs
    simp only [TrackballCameraController.update]
    rw [if_pos hs, if_pos (show TBInput.shift { inp with ctrl := false } = true from hs)]
    rfl
  · intro ctl inp hs hz1 hz2
    have hnc : ¬(0.01 * (tbCursorDelta ctl inp).1 ≠ 0 ∨
        0.01 * (tbCursorDelta ctl inp).2 ≠ 0) := by
      push_neg
      exact ⟨hz1, hz2⟩
    have hres : ctl.update inp =
        (false,
          { ctl with
            middleButtonPressed := tbPressedAfter ctl inp
            lastCursorPosition := tbLastCursorAfter ctl inp }) := by
      simp only [TrackballCameraController.update]
      rw [if_pos hs, if_neg hnc]
    rw [hres]
    exact ⟨rfl, rfl⟩
  · intro ctl inp hs hc hz
    have hres : ctl.update inp =
        (false,
          { ctl with
            middleButtonPressed := tbPressedAfter ctl inp
            lastCursorPosition := tbLastCursorAfter ctl inp }) := by
      simp only [TrackballCameraController.update]
      rw [if_neg (by simp [hs]), if_pos hc, if_pos hz]
    rw [hres]
    exact ⟨rfl, rfl⟩
  · intro ctl inp hs hc hz2 hz1
    have hnc : ¬(0.01 * (tbCursorDelta ctl inp).2 ≠ 0 ∨
        -0.01 * (tbCursorDelta ctl inp).1 ≠ 0) := by
      push_neg
      exact ⟨hz2, hz1⟩
    have hres : ctl.update inp =
        (false,
          { ctl with
            middleButtonPressed := tbPressedAfter ctl inp
            lastCursorPosition := tbLastCursorAfter ctl inp }) := by
      simp only [TrackballCameraController.update]
      rw [if_neg (by simp [hs]), if_neg (by simp [hc]), if_neg hnc]
    rw [hres]
    exact ⟨rfl, rfl⟩

/-- Witness for C9: with Shift and Ctrl both held the update equals the
update with Ctrl released, and an idle tick (no drag, no modifier, zero
delta) returns `false` leaving the camera unchanged. -/
theorem C9_trackball_priority_witness :
    exTB.update exTBInputPanBoth =
      exTB.update { exTBInputPanBoth with ctrl := false } ∧
    ((exTB.update exTBInputIdle).1 = false ∧
      (exTB.update exTBInputIdle).2.camera = exTB.camera) := by
  have hd : tbCursorDelta exTB exTBInputIdle = (0, 0) := by
    simp [tbCursorDelta, tbPressedAfter, tbBaseline, exTB, exTBInputIdle]
  refine ⟨C9_trackball_priority.1 exTB exTBInputPanBoth rfl, ?_⟩
  exact C9_trackball_priority.2.2.2 exTB exTBInputIdle rfl rfl
    (by rw [hd]; norm_num) (by rw [hd]; norm_num)

/-- C8: a trackball zoom step (Ctrl held, positive toward-center offset)
clamps the offset to `min(offset, L - 1e-4)` with `L = |center - eye|`,
moves the eye by the clamped offset along the normalized view vector,
rebuilds the camera through the 3-argument constructor, and consequently
the distance from the new eye to the center stays strictly positive — even
for a requested offset greater than `L`. -/
theorem C8_zoom_clamp (ctl : TrackballCameraController) (inp : TBInput)
    (hs : inp.shift = false) (hc : inp.ctrl = true)
    (ho : 0 < 0.01 * (tbCursorDelta ctl inp).1)
    (hne : ctl.camera.center ≠ ctl.camera.eye) :
    (ctl.update inp).1 = true ∧
    (ctl.update inp).2.camera =
      Camera.mk3
        (ctl.camera.eye +
          min (0.01 * (tbCursorDelta ctl inp).1)
              ((ctl.camera.center - ctl.camera.eye).norm - 1e-4) •
            ((1 / (ctl.camera.center - ctl.camera.eye).norm) •
              (ctl.camera.center - ctl.camera.eye)))
        ctl.camera.center ctl.worldUpAxis ∧
    0 < ((ctl.update inp).2.camera.eye - (ctl.update inp).2.camera.center).norm := by
  have hmoff : 0.01 * (tbCursorDelta ctl inp).1 ≠ 0 := ne_of_gt ho
  have hzo : tbZoomOffset (0.01 * (tbCursorDelta ctl inp).1)
      (ctl.camera.center - ctl.camera.eye).norm =
      min (0.01 * (tbCursorDelta ctl inp).1)
        ((ctl.camera.center - ctl.camera.eye).norm - 1e-4) := by
    rw [tbZoomOffset, if_pos ho]
  have hres : ctl.update inp =
      (true,
        { ctl with
          middleButtonPressed := tbPressedAfter ctl inp
          lastCursorPosition := tbLastCursorAfter ctl inp
          camera := Camera.mk3
            (ctl.camera.eye +
              tbZoomOffset (0.01 * (tbCursorDelta ctl inp).1)
                  (ctl.camera.center - ctl.camera.eye).norm •
                ((1 / (ctl.camera.center - ctl.camera.eye).norm) •
                  (ctl.camera.center - ctl.camera.eye)))
            ctl.camera.center ctl.worldUpAxis }) := by
    simp only [TrackballCameraController.update]
    rw [if_neg (by simp [hs]), if_pos hc, if_neg hmoff]
  have hv : ctl.camera.center - ctl.camera.eye ≠ 0 := V3.sub_ne_zero_of_ne hne
  have hl : 0 < (ctl.camera.center - ctl.camera.eye).norm := V3.norm_pos hv
  have hklt : min (0.01 * (tbCursorDelta ctl inp).1)
      ((ctl.camera.center - ctl.camera.eye).norm - 1e-4) <
      (ctl.camera.center - ctl.camera.eye).norm := by
    have h14 : (0 : ℝ) < 1e-4 := by norm_num
    have hmle := min_le_right (0.01 * (tbCursorDelta ctl inp).1)
      ((ctl.camera.center - ctl.camera.eye).norm - 1e-4)
    linarith
  refine ⟨by rw [hres], by rw [hres, hzo], ?_⟩
  rw [hres]
  have heye : (Camera.mk3
      (ctl.camera.eye +
        tbZoomOffset (0.01 * (tbCursorDelta ctl inp).1)
            (ctl.camera.center - ctl.camera.eye).norm •
          ((1 / (ctl.camera.center - ctl.camera.eye).norm) •
            (ctl.camera.center - ctl.camera.eye)))
      ctl.camera.center ctl.worldUpAxis).eye =
      ctl.camera.eye +
        tbZoomOffset (0.01 * (tbCursorDelta ctl inp).1)
            (ctl.camera.center - ctl.camera.eye).norm •
          ((1 / (ctl.camera.center - ctl.camera.eye).norm) •
            (ctl.camera.center - ctl.camera.eye)) := rfl
  have hcen : (Camera.mk3
      (ctl.camera.eye +
        tbZoomOffset (0.01 * (tbCursorDelta ctl inp).1)
            (ctl.camera.center - ctl.camera.eye).norm •
          ((1 / (ctl.camera.center - ctl.camera.eye).norm) •
            (ctl.camera.center - ctl.camera.eye)))
      ctl.camera.center ctl.worldUpAxis).center = ctl.camera.center := rfl
  show 0 < ((Camera.mk3
      (ctl.camera.eye +
        tbZoomOffset (0.01 * (tbCursorDelta ctl inp).1)
            (ctl.camera.center - ctl.camera.eye).norm •
          ((1 / (ctl.camera.center - ctl.camera.eye).norm) •
            (ctl.camera.center - ctl.camera.eye)))
      ctl.camera.center ctl.worldUpAxis).eye -
      (Camera.mk3
        (ctl.camera.eye +
          tbZoomOffset (0.01 * (tbCursorDelta ctl inp).1)
              (ctl.camera.center - ctl.camera.eye).norm •
            ((1 / (ctl.camera.center - ctl.camera.eye).norm) •
              (ctl.camera.center - ctl.camera.eye)))
        ctl.camera.center ctl.worldUpAxis).center).norm
  rw [heye, hcen, hzo, V3.smul_smul', V3.zoom_algebra]
  apply V3.norm_pos
  apply V3.smul_ne_zero' _ hv
  have hr : min (0.01 * (tbCursorDelta ctl inp).1)
      ((ctl.camera.center - ctl.camera.eye).norm - 1e-4) *
      (1 / (ctl.camera.center - ctl.camera.eye).norm) < 1 := by
    rw [mul_one_div, div_lt_one hl]
    exact hklt
  linarith

/-- C10: a trackball orbit step (no modifier, nonzero delta) leaves the
camera's center unchanged and preserves the distance from eye to center
exactly: the new eye is center plus the eye-minus-center vector rotated
about the camera's left axis and then about the world-up axis, both
length-preserving rotations (stated for a nondegenerate camera frame and a
nonzero world-up axis). -/
theorem C10_orbit_preserves (ctl : TrackballCameraController) (inp : TBInput)
    (hs : inp.shift = false) (hc : inp.ctrl = false)
    (hmv : 0.01 * (tbCursorDelta ctl inp).2 ≠ 0 ∨
      -0.01 * (tbCursorDelta ctl inp).1 ≠ 0)
    (hl : ctl.camera.up.cross (ctl.camera.center - ctl.camera.eye) ≠ 0)
    (hwua : ctl.worldUpAxis ≠ 0) :
    (ctl.update inp).2.camera.center = ctl.camera.center ∧
    ((ctl.update inp).2.camera.eye - (ctl.update inp).2.camera.center).norm =
      (ctl.camera.eye - ctl.camera.center).norm := by
  have hres : ctl.update inp =
      (true,
        { ctl with
          middleButtonPressed := tbPressedAfter ctl inp
          lastCursorPosition := tbLastCursorAfter ctl inp
          camera := Camera.mk3
            (ctl.camera.center +
              rotate3 (-0.01 * (tbCursorDelta ctl inp).1) ctl.worldUpAxis
                (rotate3 (0.01 * (tbCursorDelta ctl inp).2) ctl.camera.leftAxis
                  (ctl.camera.eye - ctl.camera.center)))
            ctl.camera.center ctl.worldUpAxis }) := by
    simp only [TrackballCameraController.update]
    rw [if_neg (by simp [hs]), if_neg (by simp [hc]), if_pos hmv]
  have haxisL : ctl.camera.leftAxis ≠ 0 := by
    show (ctl.camera.up.cross (ctl.camera.center - ctl.camera.eye)).normalize ≠ 0
    exact V3.normalize_ne_zero hl
  rw [hres]
  refine ⟨rfl, ?_⟩
  show (ctl.camera.center +
      rotate3 (-0.01 * (tbCursorDelta ctl inp).1) ctl.worldUpAxis
        (rotate3 (0.01 * (tbCursorDelta ctl inp).2) ctl.camera.leftAxis
          (ctl.camera.eye - ctl.camera.center)) -
      ctl.camera.center).norm = (ctl.camera.eye - ctl.camera.center).norm
  rw [V3.add_sub_cancel_left]
  have hd : (rotate3 (-0.01 * (tbCursorDelta ctl inp).1) ctl.worldUpAxis
      (rotate3 (0.01 * (tbCursorDelta ctl inp).2) ctl.camera.leftAxis
        (ctl.camera.eye - ctl.camera.center))).dot
      (rotate3 (-0.01 * (tbCursorDelta ctl inp).1) ctl.worldUpAxis
        (rotate3 (0.01 * (tbCursorDelta ctl inp).2) ctl.camera.leftAxis
          (ctl.camera.eye - ctl.camera.center))) =
      (ctl.camera.eye - ctl.camera.center).dot
        (ctl.camera.eye - ctl.camera.center) := by
    rw [rotate3_dot hwua, rotate3_dot haxisL]
  simp only [V3.norm]
  rw [hd]

/-- Witness for C8 at a concrete zoom tick: Ctrl held, cursor delta
`(100, 0)` (requested offset 1), view length 5. -/
theorem C8_zoom_clamp_witness :
    (exTB.update exTBInputZoom).1 = true ∧
    0 < ((exTB.update exTBInputZoom).2.camera.eye -
        (exTB.update exTBInputZoom).2.camera.center).norm := by
  have hd : tbCursorDelta exTB exTBInputZoom = (100, 0) := by
    simp [tbCursorDelta, tbPressedAfter, tbBaseline, exTB, exTBInputZoom]
  have ho : 0 < 0.01 * (tbCursorDelta exTB exTBInputZoom).1 := by
    rw [hd]
    norm_num
  have hne : exTB.camera.center ≠ exTB.camera.eye := by
    show (⟨0, 0, -5⟩ : V3 ℝ) ≠ ⟨0, 0, 0⟩
    simp only [ne_eq, V3.mk.injEq]
    norm_num
  exact ⟨(C8_zoom_clamp exTB exTBInputZoom rfl rfl ho hne).1,
    (C8_zoom_clamp exTB exTBInputZoom rfl rfl ho hne).2.2⟩

/-- Witness for C10 at a concrete orbit tick: no modifier, cursor delta
`(0, 50)`, camera five units from its center. -/
theorem C10_orbit_preserves_witness :
    (exTB.update exTBInputOrbit).2.camera.center = exTB.camera.center ∧
    ((exTB.update exTBInputOrbit).2.camera.eye -
        (exTB.update exTBInputOrbit).2.camera.center).norm =
      (exTB.camera.eye - exTB.camera.center).norm := by
  have hd : tbCursorDelta exTB exTBInputOrbit = (0, 50) := by
    simp [tbCursorDelta, tbPressedAfter, tbBaseline, exTB, exTBInputOrbit]
  have hmv : 0.01 * (tbCursorDelta exTB exTBInputOrbit).2 ≠ 0 ∨
      -0.01 * (tbCursorDelta exTB exTBInputOrbit).1 ≠ 0 := by
    left
    rw [hd]
    norm_num
  have hl : exTB.camera.up.cross (exTB.camera.center - exTB.camera.eye) ≠ 0 := by
    show (⟨0, 1, 0⟩ : V3 ℝ).cross ((⟨0, 0, -5⟩ : V3 ℝ) - ⟨0, 0, 0⟩) ≠ 0
    apply V3.ne_zero_of_dot_self_pos
    simp only [V3.cross, V3.dot, V3.sub_x, V3.sub_y, V3.sub_z]
    norm_num
  have hwua : exTB.worldUpAxis ≠ 0 := by
    show (⟨0, 1, 0⟩ : V3 ℝ) ≠ 0
    apply V3.ne_zero_of_dot_self_pos
    simp only [V3.dot]
    norm_num
  exact C10_orbit_preserves exTB exTBInputOrbit rfl rfl hmv hl hwua
